import Mathlib

/- Shallow embedding of the projector-light-show core (src/presets.js).
   JavaScript numbers are modelled as rationals.  Calls to Math.random are
   threaded explicitly as rational streams, and Math.sin, Math.cos, Math.hypot
   and Math.PI are abstract rational-valued parameters of the render context,
   since the claims under study concern the rational state arithmetic of the
   program, never the transcendental values themselves. -/

namespace LightShow

/-- clamp from src/presets.js: Math.max(lo, Math.min(hi, v)). -/
def qclamp (x lo hi : ℚ) : ℚ := max lo (min hi x)

/-- lerp from src/presets.js: a + (b-a)*t. -/
def qlerp (a b t : ℚ) : ℚ := a + (b - a) * t

/-- easeInOutCubic from src/presets.js. -/
def easeInOutCubic (t : ℚ) : ℚ :=
  if t < 1/2 then 4*t*t*t else 1 - (-2*t + 2)^3 / 2

/-- Number of iterations of a JavaScript loop for (let f=0; f &lt; q; f++). -/
def jsLoopCount (q : ℚ) : ℕ := (Int.ceil q).toNat

/-- The wrap ((phase % 1) + 1) % 1 of the source, for rational phases. -/
def fract01 (q : ℚ) : ℚ := q - ⌊q⌋

/-- An RGB triple as used throughout src/presets.js. -/
structure Color where
  r : ℤ
  g : ℤ
  b : ℤ
deriving DecidableEq

/- =====================
   Beat detection (class BeatDetector, src/presets.js lines 2185-2215)
   ===================== -/

structure BeatDetector where
  ema : ℚ
  dev : ℚ
  prev : ℚ
  lastBeat : ℚ
  lastThr : ℚ
deriving DecidableEq

/-- reset() of class BeatDetector. -/
def BeatDetector.reset : BeatDetector :=
  { ema := 0, dev := 0, prev := 0, lastBeat := -1000000000, lastThr := 0 }

/-- update(energy, tMs, sens01, minIntervalMs) of class BeatDetector.
    Returns the updated detector together with the boolean `hit` result. -/
def BeatDetector.update (bd : BeatDetector) (energy tMs sens01 minIntervalMs : ℚ) :
    BeatDetector × Bool :=
  let a : ℚ := 0.06
  let ema := bd.ema + a * (energy - bd.ema)
  let dev := bd.dev + a * (|energy - ema| - bd.dev)
  let k := qlerp 2.2 0.6 (qclamp sens01 0 1)
  let base := qlerp 0.030 0.008 (qclamp sens01 0 1)
  let thr := ema + k * (dev * 1.10 + base)
  let rising : Bool := decide (bd.prev < energy)
  let okTime : Bool := decide (minIntervalMs ≤ tMs - bd.lastBeat)
  let gate := qlerp 0.12 0.03 (qclamp sens01 0 1)
  let hit : Bool := okTime && rising && decide (thr < energy) && decide (gate < energy)
  ({ ema := ema, dev := dev, prev := energy,
     lastBeat := if hit then tMs else bd.lastBeat, lastThr := thr }, hit)

/-- Fold a list of (energy, timestamp) samples through BeatDetector.update,
    keeping the final detector state. -/
def beatRun (bd : BeatDetector) (inputs : List (ℚ × ℚ)) (sens01 minIntervalMs : ℚ) :
    BeatDetector :=
  inputs.foldl (fun b p => (b.update p.1 p.2 sens01 minIntervalMs).1) bd

/-- Fold a list of (energy, timestamp) samples through BeatDetector.update,
    collecting the boolean results of every call, in order. -/
def beatRunOutputs (bd : BeatDetector) (inputs : List (ℚ × ℚ)) (sens01 minIntervalMs : ℚ) :
    List Bool :=
  (inputs.foldl (fun acc p =>
      let r := acc.1.update p.1 p.2 sens01 minIntervalMs
      (r.1, acc.2 ++ [r.2])) (bd, ([] : List Bool))).2

/-- The pure (ema, dev) recurrence of BeatDetector.update, which depends only
    on the energy samples (not on timestamps, sensitivity or the interval). -/
def emaDevStep (p : ℚ × ℚ) (e : ℚ) : ℚ × ℚ :=
  let ema := p.1 + 0.06 * (e - p.1)
  (ema, p.2 + 0.06 * (|e - ema| - p.2))

def emaDevRun (p : ℚ × ℚ) (es : List ℚ) : ℚ × ℚ := es.foldl emaDevStep p

/-- The threshold formula of BeatDetector.update as a function of the
    post-update (ema, dev) pair. -/
def thrOf (sens01 : ℚ) (p : ℚ × ℚ) : ℚ :=
  p.1 + qlerp 2.2 0.6 (qclamp sens01 0 1) *
    (p.2 * 1.10 + qlerp 0.030 0.008 (qclamp sens01 0 1))

/- =====================
   Motion path (circle/square/triangle) with smooth blending
   (src/presets.js lines 1230-1302)
   ===================== -/

inductive MotionMode where
  | off
  | circle
  | square
  | triangle
deriving DecidableEq

structure MotionSt where
  motionPhase : ℚ
  fromMode : MotionMode
  toMode : MotionMode
  blendStart : ℚ
  blending : Bool
deriving DecidableEq

/-- The per-frame render context: the module-level dimension, control and
    helper globals read by the drawing code.  rnd is the stream of
    Math.random() draws of the current frame, in call order; sinq, cosq, hypq
    and piq stand for Math.sin, Math.cos, Math.hypot and Math.PI. -/
structure Ctx where
  visualW : ℚ
  H : ℚ
  DPR : ℚ
  presetSize : ℚ
  presetSpeed : ℚ
  presetBrightness : ℚ
  multiColor : Bool
  presetColor : Color
  multiColorClr : Color
  onoff : Bool
  now : ℚ
  mouseXw : ℚ
  mouseYw : ℚ
  transitionSpeed : ℚ
  rnd : ℕ → ℚ
  sinq : ℚ → ℚ
  cosq : ℚ → ℚ
  hypq : ℚ → ℚ → ℚ
  piq : ℚ

/-- motionBlendDurationSec() from the source: 0 = slow blend, 100 = fast. -/
def motionBlendDurationSec (ctx : Ctx) : ℚ :=
  qlerp 1.8 0.10 (qclamp (ctx.transitionSpeed/100) 0 1)

/-- motionPos(mode, phase, r) from the source. -/
def motionPos (ctx : Ctx) (mode : MotionMode) (phase r : ℚ) : ℚ × ℚ :=
  let t := fract01 phase
  match mode with
  | .off => (0, 0)
  | .circle =>
      let ang := t * ctx.piq * 2
      (r * ctx.cosq ang, r * ctx.sinq ang)
  | .square =>
      let s := t * 4
      let seg := (⌊s⌋ : ℤ).toNat
      let u := s - ⌊s⌋
      let P : List (ℚ × ℚ) := [(r, -r), (r, r), (-r, r), (-r, -r), (r, -r)]
      let p0 := P.getD seg (0, 0)
      let p1 := P.getD (seg+1) (0, 0)
      (qlerp p0.1 p1.1 u, qlerp p0.2 p1.2 u)
  | .triangle =>
      let s := t * 3
      let seg := (⌊s⌋ : ℤ).toNat
      let u := s - ⌊s⌋
      let P : List (ℚ × ℚ) := [(0, -r), (r, r), (-r, r), (0, -r)]
      let p0 := P.getD seg (0, 0)
      let p1 := P.getD (seg+1) (0, 0)
      (qlerp p0.1 p1.1 u, qlerp p0.2 p1.2 u)

/-- setMotionMode(next) from the source: begin a blend unless next already is
    the current target. -/
def setMotionMode (next : MotionMode) (now : ℚ) (ms : MotionSt) : MotionSt :=
  if next = ms.toMode then ms
  else { ms with fromMode := ms.toMode, toMode := next,
                 blendStart := now, blending := true }

/-- The eased blend factor computed by computeMotionOffset for state ms at
    time tNow (1 when no blend is in progress). -/
def blendFactor (ctx : Ctx) (tNow : ℚ) (ms : MotionSt) : ℚ :=
  if ms.blending then
    easeInOutCubic (qclamp ((tNow - ms.blendStart) / (motionBlendDurationSec ctx * 1000)) 0 1)
  else 1

/-- computeMotionOffset(tNow, dt) from the source: advances the cyclic phase,
    evaluates the from/to paths and blends them; on blend completion the
    from mode is snapped to the target and blending stops. -/
def computeMotionOffset (ctx : Ctx) (tNow dt : ℚ) (ms : MotionSt) :
    MotionSt × (ℚ × ℚ) :=
  let cps := qlerp 0 0.22 (qclamp (ctx.presetSpeed/100) 0 1)
  let phase := fract01 (ms.motionPhase + dt * cps)
  let r := 0.18 * min (ctx.visualW/ctx.DPR) (ctx.H/ctx.DPR)
  let fromP := motionPos ctx ms.fromMode phase r
  let toP := motionPos ctx ms.toMode phase r
  let blend := blendFactor ctx tNow ms
  let done : Bool := ms.blending && decide (1 ≤ blend)
  ({ ms with motionPhase := phase,
             fromMode := if done then ms.toMode else ms.fromMode,
             blending := if done then false else ms.blending },
   (qlerp fromP.1 toP.1 blend, qlerp fromP.2 toP.2 blend))

/- =====================
   Preset animation engine state
   ===================== -/

/-- One bouncing spotlight ball (class Kreis). -/
structure Kreis where
  posX : ℚ
  posY : ℚ
  spdX : ℚ
  spdY : ℚ
deriving DecidableEq

/-- The persistent module-level animation state mutated by drawPreset and
    selectPreset: presetNumber, the shared accumulators v and m, the random
    endpoints a, b_, c, d, the timestamp timeRand, the dedicated spin angles
    of presets 33 and 34 (called _sqSpin and _triSpin in the source), the
    random layout arrays ranX/ranY and the spotlight pool. -/
structure St where
  presetNumber : ℕ
  v : ℚ
  m : ℚ
  a : ℚ
  b_ : ℚ
  c : ℚ
  d : ℚ
  timeRand : ℚ
  sqSpin : ℚ
  triSpin : ℚ
  ranX : ℕ → ℚ
  ranY : ℕ → ℚ
  spotlight : ℕ → Kreis

/-- The audio feature snapshot passed (and currently ignored) by drawPreset. -/
structure AudioFeatures where
  amp : ℚ
  bass : ℚ
  mid : ℚ
  tre : ℚ
  centroid : ℚ
deriving DecidableEq

/-- One recorded canvas operation.  Every drawing helper call and every
    observable mutation of the 2d context performed by a preset routine is
    logged as one of these, with its numeric arguments already converted to
    canvas pixels exactly as the source helpers convert them. -/
inductive DrawOp where
  | setFill (c : Color) (alpha : ℚ)
  | setStroke (c : Color) (alpha : ℚ)
  | fillStyleRGBA (c : Color) (alpha : ℚ)
  | fillStyleClear
  | lineWidth (w : ℚ)
  | lineCapRound
  | lineJoinRound
  | fillCircle (x y r : ℚ)
  | strokeLine (x1 y1 x2 y2 : ℚ)
  | arc (x y r a1 a2 : ℚ)
  | rawArcStroke (x y r a1 a2 : ℚ)
  | rawArcFill (x y r a1 a2 : ℚ)
  | fillRect (x y w h : ℚ)
  | strokeRect (x y w h : ℚ)
  | tinyDots (pts : List (ℚ × ℚ)) (r : ℚ)
  | circles (cs : List (ℚ × ℚ × ℚ))
  | resetTransform
  | save
  | restore
  | translate (x y : ℚ)
  | rotate (ang : ℚ)
  | setDash (onLen offLen : ℚ)
  | dashOffset (o : ℚ)
  | pathRect (x y w h : ℚ)
  | pathMove (x y : ℚ)
  | pathLine (x y : ℚ)
  | pathClose
  | strokePath
  | restoreLineDash
  | restoreDashOffset
  | restoreLineCap
  | restoreLineJoin

/- Rendering helpers (src/presets.js lines 1321-1385). -/

def worldToCanvasX (ctx : Ctx) (x : ℚ) : ℚ := x * ctx.DPR

def worldToCanvasY (ctx : Ctx) (y : ℚ) : ℚ := y * ctx.DPR

/-- altColor(i). -/
def altColor (ctx : Ctx) (i : ℕ) : Color :=
  if ¬ctx.multiColor then ctx.presetColor
  else if i % 2 = 0 then ctx.presetColor else ctx.multiColorClr

/-- setFillColor(c): fillStyle = rgba(c, clamp(presetBrightness/100, 0, 1)). -/
def setFillColor (ctx : Ctx) (c : Color) : DrawOp :=
  .setFill c (qclamp (ctx.presetBrightness/100) 0 1)

/-- setStrokeColor(c). -/
def setStrokeColor (ctx : Ctx) (c : Color) : DrawOp :=
  .setStroke c (qclamp (ctx.presetBrightness/100) 0 1)

/-- fillCircleWorld(x, y, r). -/
def fillCircleWorld (ctx : Ctx) (x y r : ℚ) : DrawOp :=
  .fillCircle (worldToCanvasX ctx x) (worldToCanvasY ctx y) (r * ctx.DPR)

/-- strokeLineWorld(x1, y1, x2, y2). -/
def strokeLineWorld (ctx : Ctx) (x1 y1 x2 y2 : ℚ) : DrawOp :=
  .strokeLine (worldToCanvasX ctx x1) (worldToCanvasY ctx y1)
    (worldToCanvasX ctx x2) (worldToCanvasY ctx y2)

/-- strokeRectCenteredWorld(cx, cy, w, h). -/
def strokeRectCenteredWorld (ctx : Ctx) (cx cy w h : ℚ) : DrawOp :=
  .strokeRect (worldToCanvasX ctx (cx - w/2)) (worldToCanvasY ctx (cy - h/2))
    (w * ctx.DPR) (h * ctx.DPR)

/-- arcWorld(cx, cy, diam, start, end). -/
def arcWorld (ctx : Ctx) (cx cy diam a1 a2 : ℚ) : DrawOp :=
  .arc (worldToCanvasX ctx cx) (worldToCanvasY ctx cy) ((diam/2) * ctx.DPR) a1 a2

/-- fillCirclesBatch(circles): draws nothing on an empty list. -/
def fillCirclesBatch (ctx : Ctx) (cs : List (ℚ × ℚ × ℚ)) : List DrawOp :=
  if cs = [] then []
  else [.circles (cs.map (fun p =>
    (worldToCanvasX ctx p.1, worldToCanvasY ctx p.2.1, p.2.2 * ctx.DPR)))]

/-- fillTinyDotsBatch(points, r): one fillRect per point. -/
def fillTinyDotsBatch (ctx : Ctx) (pts : List (ℚ × ℚ)) (r : ℚ) : List DrawOp :=
  let rr := max 1 (r * ctx.DPR)
  let half := rr * 0.5
  pts.map (fun p => .fillRect (p.1 * ctx.DPR - half) (p.2 * ctx.DPR - half) rr rr)

/-- Kreis.step(): bounce off the drawable bounds, then advance by the speed
    scale; returns the updated ball and the (x, y, r) snapshot it draws. -/
def kreisStep (ctx : Ctx) (k : Kreis) : Kreis × ℚ × ℚ × ℚ :=
  let ballDiam : ℚ := (⌊qlerp 300 40 (qclamp ((ctx.presetSize+1)/100) 0 1)⌋ : ℤ)
  let ballR := ballDiam / 2
  let w := ctx.visualW/ctx.DPR
  let h := ctx.H/ctx.DPR
  let x0 := if k.posX ≤ ballR then ballR
            else if w - ballR ≤ k.posX then w - ballR else k.posX
  let sx := if k.posX ≤ ballR then -k.spdX
            else if w - ballR ≤ k.posX then -k.spdX else k.spdX
  let y0 := if k.posY ≤ ballR then ballR
            else if h - ballR ≤ k.posY then h - ballR else k.posY
  let sy := if k.posY ≤ ballR then -k.spdY
            else if h - ballR ≤ k.posY then -k.spdY else k.spdY
  let moveScale := qlerp 0 1 (qclamp ((ctx.presetSpeed+1)/100) 0 1)
  let x := x0 + moveScale * sx
  let y := y0 + moveScale * sy
  (⟨x, y, sx, sy⟩, x, y, ballR)

/-- The speed-dependent re-randomization interval with coefficient 10
    (presets 3 and 4): 1e9 when speed is 0, else 1000 - 10*speed. -/
def rerandInterval10 (speed : ℚ) : ℚ :=
  if speed = 0 then 1000000000 else 1000 - 10*speed

/-- The speed-dependent re-randomization interval with coefficient 9.5
    (presets 9 and 10): 1e9 when speed is 0, else 1000 - 9.5*speed. -/
def rerandInterval95 (speed : ℚ) : ℚ :=
  if speed = 0 then 1000000000 else 1000 - 9.5*speed

/- =====================
   The 35 preset drawing routines (the switch cases of drawPreset).
   Each takes the shared per-frame locals cx, cy, size, tx, ty computed by
   drawPreset and returns the updated persistent state together with the
   recorded canvas operations of the frame, in program order.
   ===================== -/

/-- case 0: Ring (sin). v advances per dot inside the loop. -/
def drawCase0 (ctx : Ctx) (cx cy size tx ty : ℚ) (st : St) : St × List DrawOp :=
  let p := (List.range 18).foldl (fun (p : ℚ × List DrawOp) (i : ℕ) =>
    let r := size * (ctx.H/ctx.DPR) / 240
    let x := cx + tx + r * ctx.sinq ((i : ℚ) * p.1)
    let y := cy + ty + r * ctx.cosq ((i : ℚ) * p.1)
    (p.1 + ctx.presetSpeed/360000,
     p.2 ++ [setFillColor ctx (altColor ctx i), fillCircleWorld ctx x y (0.4*size)]))
    (st.v, [])
  ({ st with v := p.1 }, p.2)

/-- case 1: Ring (rot). v advances once, before the loop. -/
def drawCase1 (ctx : Ctx) (cx cy size tx ty : ℚ) (st : St) : St × List DrawOp :=
  let v := st.v + ctx.presetSpeed/2000
  let ops := (List.range 18).foldl (fun acc (i : ℕ) =>
    let r := size * (ctx.H/ctx.DPR) / 240
    let a2 := (i : ℚ) * ctx.piq / 9 + v
    acc ++ [setFillColor ctx (altColor ctx i),
            fillCircleWorld ctx (cx + tx + r * ctx.sinq a2) (cy + ty + r * ctx.cosq a2)
              (0.4*size)]) []
  ({ st with v := v }, ops)

/-- case 2: 3 Rings. -/
def drawCase2 (ctx : Ctx) (cx cy size tx ty : ℚ) (st : St) : St × List DrawOp :=
  let v := st.v + ctx.presetSpeed/3000
  let ops := (List.range 3).foldl (fun acc (ring : ℕ) =>
    let rr : ℚ := if ring = 0 then 1 else if ring = 1 then 0.35 else 0.6
    let dot : ℚ := if ring = 0 then 0.2 else if ring = 1 then 0.08 else 0.12
    let rot : ℚ := if ring = 2 then -2*v else v
    (List.range 18).foldl (fun acc2 (i : ℕ) =>
      let r := rr * (size * (ctx.H/ctx.DPR) / 240)
      let a2 := (i : ℚ) * ctx.piq / 9 + rot
      acc2 ++ [setFillColor ctx (altColor ctx (i+ring)),
               fillCircleWorld ctx (cx + tx + r * ctx.sinq a2) (cy + ty + r * ctx.cosq a2)
                 (dot*(size+10))]) acc) []
  ({ st with v := v }, ops)

/-- case 3: Rand Lines.  Draws with the current endpoints, then re-randomizes
    them when now - timeRand reaches the speed-derived interval. -/
def drawCase3 (ctx : Ctx) (cx cy size tx ty : ℚ) (st : St) : St × List DrawOp :=
  let w := ctx.visualW/ctx.DPR
  let h := ctx.H/ctx.DPR
  let pre : List DrawOp := [.lineWidth ((1.4*ctx.presetSize + 10) * ctx.DPR), .lineCapRound]
  let draw : List DrawOp :=
    if ctx.multiColor then
      [setStrokeColor ctx ctx.presetColor,
       strokeLineWorld ctx (st.a+tx) (st.b_+ty)
         (st.a + (st.c-st.a)/3 + tx) (st.b_ + (st.d-st.b_)/3 + ty),
       strokeLineWorld ctx (st.a + 2*(st.c-st.a)/3 + tx) (st.b_ + 2*(st.d-st.b_)/3 + ty)
         (st.c+tx) (st.d+ty),
       setStrokeColor ctx ctx.multiColorClr,
       strokeLineWorld ctx (st.a + (st.c-st.a)/3 + tx) (st.b_ + (st.d-st.b_)/3 + ty)
         (st.a + 2*(st.c-st.a)/3 + tx) (st.b_ + 2*(st.d-st.b_)/3 + ty)]
    else
      [setStrokeColor ctx ctx.presetColor,
       strokeLineWorld ctx (st.a+tx) (st.b_+ty) (st.c+tx) (st.d+ty)]
  let rerand : Prop := rerandInterval10 ctx.presetSpeed ≤ ctx.now - st.timeRand
  ({ st with
      timeRand := if rerand then ctx.now else st.timeRand,
      a := if rerand then ((⌊50 + ctx.rnd 0 * (w-100)⌋ : ℤ) : ℚ) else st.a,
      b_ := if rerand then ((⌊50 + ctx.rnd 1 * (h-100)⌋ : ℤ) : ℚ) else st.b_,
      c := if rerand then ((⌊50 + ctx.rnd 2 * (w-100)⌋ : ℤ) : ℚ) else st.c,
      d := if rerand then ((⌊50 + ctx.rnd 3 * (h-100)⌋ : ℤ) : ℚ) else st.d },
   pre ++ draw)

/-- case 4: Rand Ring. -/
def drawCase4 (ctx : Ctx) (cx cy size tx ty : ℚ) (st : St) : St × List DrawOp :=
  let w := ctx.visualW/ctx.DPR
  let h := ctx.H/ctx.DPR
  let pre : List DrawOp :=
    [.lineWidth (qlerp 5 60 (ctx.presetSize/100) * ctx.DPR), .fillStyleClear]
  let draw : List DrawOp :=
    if ctx.multiColor then
      (List.range 8).foldl (fun acc (l : ℕ) =>
        acc ++ [setStrokeColor ctx (if l % 2 = 0 then ctx.presetColor else ctx.multiColorClr),
                arcWorld ctx (st.a+tx) (st.b_+ty) 500
                  ((l : ℚ) * ctx.piq / 4 + st.c) (((l : ℚ)+1) * ctx.piq / 4 + st.c)]) []
    else
      [setStrokeColor ctx ctx.presetColor,
       .rawArcStroke (worldToCanvasX ctx (st.a+tx)) (worldToCanvasY ctx (st.b_+ty))
         (250 * ctx.DPR) 0 (ctx.piq * 2)]
  let rerand : Prop := rerandInterval10 ctx.presetSpeed ≤ ctx.now - st.timeRand
  ({ st with
      timeRand := if rerand then ctx.now else st.timeRand,
      a := if rerand then ((⌊150 + ctx.rnd 0 * (w-300)⌋ : ℤ) : ℚ) else st.a,
      b_ := if rerand then ((⌊150 + ctx.rnd 1 * (h-300)⌋ : ℤ) : ℚ) else st.b_,
      c := if rerand then ctx.rnd 2 * ctx.piq * 2 else st.c },
   pre ++ draw)

/-- case 5: Sinus. v advances per dot inside the loop. -/
def drawCase5 (ctx : Ctx) (cx cy size tx ty : ℚ) (st : St) : St × List DrawOp :=
  let w := ctx.visualW/ctx.DPR
  let p := (List.range (jsLoopCount (w/16))).foldl (fun (p : ℚ × List DrawOp) (f : ℕ) =>
    let col := if ctx.multiColor then
        (if f % 20 ≤ 10 then ctx.presetColor else ctx.multiColorClr)
      else ctx.presetColor
    let x := 16*(f : ℚ) + tx
    let y := cy + ty + 4.5*ctx.presetSize * ctx.sinq (p.1 - (f : ℚ)/15)
    (p.1 + ctx.presetSpeed/90000,
     p.2 ++ [setFillColor ctx col, fillCircleWorld ctx x y 35])) (st.v, [])
  ({ st with v := p.1 }, p.2)

/-- case 6: Sin Blocks. -/
def drawCase6 (ctx : Ctx) (cx cy size tx ty : ℚ) (st : St) : St × List DrawOp :=
  let w := ctx.visualW/ctx.DPR
  let h := ctx.H/ctx.DPR
  let p := (List.range (jsLoopCount (w/90))).foldl (fun (p : ℚ × List DrawOp) (f : ℕ) =>
    let col := if ctx.multiColor then
        (if f % 2 = 0 then ctx.presetColor else ctx.multiColorClr)
      else ctx.presetColor
    let x := 100*(f : ℚ) + tx
    let y1 := 0.45*h + ty + 100 * ctx.sinq (p.1 - (f : ℚ)/1) + ctx.presetSize*h*0.005
    let y2 := 0.45*h + ty - 100 * ctx.sinq (p.1 - (f : ℚ)/1) - ctx.presetSize*h*0.005
    (p.1 + ctx.presetSpeed/15000,
     p.2 ++ [setFillColor ctx col,
             .fillRect (worldToCanvasX ctx x) (worldToCanvasY ctx y1) (60*ctx.DPR) ((h/10)*ctx.DPR),
             .fillRect (worldToCanvasX ctx x) (worldToCanvasY ctx y2) (60*ctx.DPR) ((h/10)*ctx.DPR)]))
    (st.v, [])
  ({ st with v := p.1 }, p.2)

/-- case 7: Cross. -/
def drawCase7 (ctx : Ctx) (cx cy size tx ty : ℚ) (st : St) : St × List DrawOp :=
  let v := st.v + ctx.presetSpeed/1000
  let w := ctx.visualW/ctx.DPR
  let h := ctx.H/ctx.DPR
  let pre : List DrawOp := [.lineWidth ((1.5*ctx.presetSize) * ctx.DPR)]
  let draw : List DrawOp :=
    if ctx.multiColor then
      (List.range 10).foldl (fun acc (i : ℕ) =>
        let y1 := ((i : ℚ)-5)*h/5
        let y2 := ((i : ℚ)-4)*h/5
        let x1 := ((i : ℚ)-5)*w/5
        let x2 := ((i : ℚ)-4)*w/5
        acc ++ [setStrokeColor ctx (altColor ctx i),
                strokeLineWorld ctx (cx+tx) (cy+ty+y1) (cx+tx) (cy+ty+y2),
                strokeLineWorld ctx (cx+tx+x1) (cy+ty) (cx+tx+x2) (cy+ty)]) []
    else
      [setStrokeColor ctx ctx.presetColor,
       strokeLineWorld ctx (cx+tx) (cy+ty-h) (cx+tx) (cy+ty+h),
       strokeLineWorld ctx (cx+tx-w) (cy+ty) (cx+tx+w) (cy+ty)]
  ({ st with v := v }, pre ++ draw)

/-- case 8: Discoball. Rotates the precomputed point cloud rigidly. -/
def drawCase8 (ctx : Ctx) (cx cy size tx ty : ℚ) (st : St) : St × List DrawOp :=
  let v := st.v + ctx.presetSpeed/5000
  let cs := ctx.cosq v
  let sn := ctx.sinq v
  let r := max 1 (ctx.presetSize/8)
  let pts := (List.range 1000).foldl
    (fun (acc : List (ℚ × ℚ) × List (ℚ × ℚ)) (i : ℕ) =>
      let x := st.ranX i
      let y := st.ranY i
      let px := cx + tx + (x*cs - y*sn)
      let py := cy + ty + (x*sn + y*cs)
      if ctx.multiColor ∧ 500 < i then (acc.1, acc.2 ++ [(px, py)])
      else (acc.1 ++ [(px, py)], acc.2)) ([], [])
  let opsA : List DrawOp :=
    [setFillColor ctx ctx.presetColor] ++
    (if r ≤ 2.2 then fillTinyDotsBatch ctx pts.1 r
     else fillCirclesBatch ctx (pts.1.map (fun p => (p.1, p.2, r))))
  let opsB : List DrawOp :=
    if ctx.multiColor then
      [setFillColor ctx ctx.multiColorClr] ++
      (if r ≤ 2.2 then fillTinyDotsBatch ctx pts.2 r
       else fillCirclesBatch ctx (pts.2.map (fun p => (p.1, p.2, r))))
    else []
  ({ st with v := v }, opsA ++ opsB)

/-- case 9: Rand Circles. -/
def drawCase9 (ctx : Ctx) (cx cy size tx ty : ℚ) (st : St) : St × List DrawOp :=
  let w := ctx.visualW/ctx.DPR
  let h := ctx.H/ctx.DPR
  let count := (⌊(ctx.presetSize+10)/10⌋ : ℤ).toNat
  let ops := (List.range count).foldl (fun acc (i : ℕ) =>
    let col := if ctx.multiColor ∧ ctx.presetSize/20 < (i : ℚ) then ctx.multiColorClr
               else ctx.presetColor
    acc ++ [setFillColor ctx col,
            .rawArcFill (worldToCanvasX ctx (st.ranX i + tx)) (worldToCanvasY ctx (st.ranY i + ty))
              ((150 - 1.35*ctx.presetSize) * ctx.DPR) 0 (ctx.piq * 2)]) []
  let rerand : Prop := rerandInterval95 ctx.presetSpeed ≤ ctx.now - st.timeRand
  let rad := (300 - 2.7*ctx.presetSize)/2
  ({ st with
      timeRand := if rerand then ctx.now else st.timeRand,
      ranX := if rerand then
          (fun i => if i < count then ((⌊rad + ctx.rnd (2*i) * (w - 2*rad)⌋ : ℤ) : ℚ)
                    else st.ranX i)
        else st.ranX,
      ranY := if rerand then
          (fun i => if i < count then ((⌊rad + ctx.rnd (2*i+1) * (h - 2*rad)⌋ : ℤ) : ℚ)
                    else st.ranY i)
        else st.ranY },
   ops)

/-- case 10: Rand Rings. -/
def drawCase10 (ctx : Ctx) (cx cy size tx ty : ℚ) (st : St) : St × List DrawOp :=
  let w := ctx.visualW/ctx.DPR
  let h := ctx.H/ctx.DPR
  let count := (⌊(ctx.presetSize+10)/10⌋ : ℤ).toNat
  let pre : List DrawOp := [.lineWidth ((60 - 0.5*ctx.presetSize) * ctx.DPR), .fillStyleClear]
  let ops := (List.range count).foldl (fun acc (i : ℕ) =>
    let col := if ctx.multiColor ∧ ctx.presetSize/20 < (i : ℚ) then ctx.multiColorClr
               else ctx.presetColor
    acc ++ [setStrokeColor ctx col,
            .rawArcStroke (worldToCanvasX ctx (st.ranX i + tx)) (worldToCanvasY ctx (st.ranY i + ty))
              ((250 - 2*ctx.presetSize) * ctx.DPR) 0 (ctx.piq * 2)]) []
  let rerand : Prop := rerandInterval95 ctx.presetSpeed ≤ ctx.now - st.timeRand
  let rad := (300 - 2.7*ctx.presetSize)/2
  ({ st with
      timeRand := if rerand then ctx.now else st.timeRand,
      ranX := if rerand then
          (fun i => if i < count then ((⌊rad + ctx.rnd (2*i) * (w - 2*rad)⌋ : ℤ) : ℚ)
                    else st.ranX i)
        else st.ranX,
      ranY := if rerand then
          (fun i => if i < count then ((⌊rad + ctx.rnd (2*i+1) * (h - 2*rad)⌋ : ℤ) : ℚ)
                    else st.ranY i)
        else st.ranY },
   pre ++ ops)

/-- case 11: Scan vertical. -/
def drawCase11 (ctx : Ctx) (cx cy size tx ty : ℚ) (st : St) : St × List DrawOp :=
  let v := st.v + ctx.presetSpeed/1000
  let h := ctx.H/ctx.DPR
  let x := (cx/1.2) * ctx.sinq v + cx + tx
  let pre : List DrawOp := [.lineWidth ((1.5*ctx.presetSize) * ctx.DPR)]
  let draw : List DrawOp :=
    if ctx.multiColor then
      [setStrokeColor ctx ctx.presetColor,
       strokeLineWorld ctx x 0 x (h/3),
       strokeLineWorld ctx x (2*h/3) x h,
       setStrokeColor ctx ctx.multiColorClr,
       strokeLineWorld ctx x (h/3) x (2*h/3)]
    else
      [setStrokeColor ctx ctx.presetColor, strokeLineWorld ctx x 0 x h]
  ({ st with v := v }, pre ++ draw)

/-- case 12: Scan horizontal. -/
def drawCase12 (ctx : Ctx) (cx cy size tx ty : ℚ) (st : St) : St × List DrawOp :=
  let v := st.v + ctx.presetSpeed/1000
  let w := ctx.visualW/ctx.DPR
  let y := (cy/1.2) * ctx.sinq v + cy + ty
  let pre : List DrawOp := [.lineWidth ((1.5*ctx.presetSize) * ctx.DPR)]
  let draw : List DrawOp :=
    if ctx.multiColor then
      [setStrokeColor ctx ctx.presetColor,
       strokeLineWorld ctx 0 y (w/3) y,
       strokeLineWorld ctx (2*w/3) y w y,
       setStrokeColor ctx ctx.multiColorClr,
       strokeLineWorld ctx (w/3) y (2*w/3) y]
    else
      [setStrokeColor ctx ctx.presetColor, strokeLineWorld ctx 0 y w y]
  ({ st with v := v }, pre ++ draw)

/-- case 13: 2 Scan. -/
def drawCase13 (ctx : Ctx) (cx cy size tx ty : ℚ) (st : St) : St × List DrawOp :=
  let v := st.v + ctx.presetSpeed/1000
  let w := ctx.visualW/ctx.DPR
  let h := ctx.H/ctx.DPR
  let x := (cx/1.2) * ctx.sinq (v*1.2) + cx + tx
  let y := (cy/1.2) * ctx.sinq (v*0.8) + cy + ty
  let pre : List DrawOp := [.lineWidth ((1.5*ctx.presetSize) * ctx.DPR)]
  let draw : List DrawOp :=
    if ctx.multiColor then
      (List.range 10).foldl (fun acc (i : ℕ) =>
        let y1 := ((i : ℚ)-5)*h/5
        let y2 := ((i : ℚ)-4)*h/5
        let x1 := ((i : ℚ)-5)*w/5
        let x2 := ((i : ℚ)-4)*w/5
        acc ++ [setStrokeColor ctx (altColor ctx i),
                strokeLineWorld ctx x (y+y1) x (y+y2),
                strokeLineWorld ctx (x+x1) y (x+x2) y]) []
    else
      [setStrokeColor ctx ctx.presetColor,
       strokeLineWorld ctx x (y-h) x (y+h),
       strokeLineWorld ctx (x-w) y (x+w) y]
  ({ st with v := v }, pre ++ draw)

/-- case 14: PingPong.  Steps the first count spotlights, batching circles. -/
def drawCase14 (ctx : Ctx) (cx cy size tx ty : ℚ) (st : St) : St × List DrawOp :=
  let count := ((max 4 (min 12 ⌊qlerp 4 12 (qclamp (ctx.presetSize/100) 0 1)⌋)) : ℤ).toNat
  let acc := (List.range count).foldl
    (fun (acc : (ℕ → Kreis) × List (ℚ × ℚ × ℚ) × List (ℚ × ℚ × ℚ)) (i : ℕ) =>
      let s := kreisStep ctx (acc.1 (i % 21))
      let spots := fun j => if j = i % 21 then s.1 else acc.1 j
      let cxp := s.2.1 + tx
      let cyp := s.2.2.1 + ty
      let rr := s.2.2.2
      if ctx.multiColor ∧ i % 2 = 1 then (spots, acc.2.1, acc.2.2 ++ [(cxp, cyp, rr)])
      else (spots, acc.2.1 ++ [(cxp, cyp, rr)], acc.2.2))
    (st.spotlight, [], [])
  let ops :=
    [setFillColor ctx ctx.presetColor] ++ fillCirclesBatch ctx acc.2.1 ++
    (if ctx.multiColor then
       [setFillColor ctx ctx.multiColorClr] ++ fillCirclesBatch ctx acc.2.2
     else [])
  ({ st with spotlight := acc.1 }, ops)

/-- case 15: Mouse Spot. -/
def drawCase15 (ctx : Ctx) (cx cy size tx ty : ℚ) (st : St) : St × List DrawOp :=
  let r := 3*ctx.presetSize
  (st,
   [setFillColor ctx ctx.presetColor,
    fillCircleWorld ctx (ctx.mouseXw + tx) (ctx.mouseYw + ty) r] ++
   (if ctx.multiColor then
      [setFillColor ctx ctx.multiColorClr,
       fillCircleWorld ctx (ctx.mouseXw + tx) (ctx.mouseYw + ty) (r*0.55)]
    else []))

/-- case 16: Multi vertical bars scrolling horizontally on m. -/
def drawCase16 (ctx : Ctx) (cx cy size tx ty : ℚ) (st : St) : St × List DrawOp :=
  let w := ctx.visualW/ctx.DPR
  let h := ctx.H/ctx.DPR
  let ops := [DrawOp.lineWidth (ctx.presetSize * ctx.DPR)] ++
    (List.range 9).foldl (fun acc (k : ℕ) =>
      let r : ℤ := (k : ℤ) - 4
      let col := if ctx.multiColor then
          (if r % 2 = 0 then ctx.presetColor else ctx.multiColorClr)
        else ctx.presetColor
      let x := (st.m + (r : ℚ)*w/4) + tx
      acc ++ [setStrokeColor ctx col, strokeLineWorld ctx x 0 x h]) []
  let m1 := st.m + ctx.presetSpeed/3
  ({ st with m := if w - 50 ≤ m1 then -50 else m1 }, ops)

/-- case 17: Multi horizontal bars scrolling vertically on m. -/
def drawCase17 (ctx : Ctx) (cx cy size tx ty : ℚ) (st : St) : St × List DrawOp :=
  let w := ctx.visualW/ctx.DPR
  let h := ctx.H/ctx.DPR
  let ops := [DrawOp.lineWidth (ctx.presetSize * ctx.DPR)] ++
    (List.range 9).foldl (fun acc (k : ℕ) =>
      let r : ℤ := (k : ℤ) - 4
      let col := if ctx.multiColor then
          (if r % 2 = 0 then ctx.presetColor else ctx.multiColorClr)
        else ctx.presetColor
      let y := (st.m + (r : ℚ)*h/4) + ty
      acc ++ [setStrokeColor ctx col, strokeLineWorld ctx 0 y w y]) []
  let m1 := st.m + ctx.presetSpeed/3
  ({ st with m := if h - 50 ≤ m1 then -50 else m1 }, ops)

/-- case 18: Sin Multi vertical. -/
def drawCase18 (ctx : Ctx) (cx cy size tx ty : ℚ) (st : St) : St × List DrawOp :=
  let v := st.v + ctx.presetSpeed/5000
  let w := ctx.visualW/ctx.DPR
  let h := ctx.H/ctx.DPR
  let yShift := h/3 * ctx.sinq v
  let ops := [DrawOp.lineWidth (80 * ctx.DPR)] ++
    (List.range 9).foldl (fun acc (k : ℕ) =>
      let r : ℤ := (k : ℤ) - 4
      let col := if ctx.multiColor then
          (if r % 2 = 0 then ctx.presetColor else ctx.multiColorClr)
        else ctx.presetColor
      let x := (st.m + (r : ℚ)*w/4) + tx
      let y1 := qlerp (h/2) 200 (ctx.presetSize/100)
      let y2 := qlerp (h/2) (h-200) (ctx.presetSize/100)
      acc ++ [setStrokeColor ctx col,
              strokeLineWorld ctx x (yShift + y1 + ty) x (yShift + y2 + ty)]) []
  let m1 := st.m + ctx.presetSpeed/4
  ({ st with v := v, m := if w - 50 ≤ m1 then -50 else m1 }, ops)

/-- case 19: Sin Multi horizontal. -/
def drawCase19 (ctx : Ctx) (cx cy size tx ty : ℚ) (st : St) : St × List DrawOp :=
  let v := st.v + ctx.presetSpeed/5000
  let w := ctx.visualW/ctx.DPR
  let h := ctx.H/ctx.DPR
  let xShift := w/3 * ctx.sinq v
  let ops := [DrawOp.lineWidth (80 * ctx.DPR)] ++
    (List.range 9).foldl (fun acc (k : ℕ) =>
      let r : ℤ := (k : ℤ) - 4
      let col := if ctx.multiColor then
          (if r % 2 = 0 then ctx.presetColor else ctx.multiColorClr)
        else ctx.presetColor
      let y := (st.m + (r : ℚ)*h/4) + ty
      let x1 := qlerp (w/2) 200 (ctx.presetSize/100)
      let x2 := qlerp (w/2) (w-200) (ctx.presetSize/100)
      acc ++ [setStrokeColor ctx col,
              strokeLineWorld ctx (xShift + x1 + tx) y (xShift + x2 + tx) y]) []
  let m1 := st.m + ctx.presetSpeed/4
  ({ st with v := v, m := if h - 50 ≤ m1 then -50 else m1 }, ops)

/-- case 20: Half Arc.  v is a step counter reset at 100 with a fresh random
    origin and radius. -/
def drawCase20 (ctx : Ctx) (cx cy size tx ty : ℚ) (st : St) : St × List DrawOp :=
  let w := ctx.visualW/ctx.DPR
  let h := ctx.H/ctx.DPR
  let pre : List DrawOp :=
    [.lineWidth (ctx.presetSize * ctx.DPR), .fillStyleClear,
     setStrokeColor ctx (if ctx.multiColor then ctx.multiColorClr else ctx.presetColor)]
  let v1 := st.v + ctx.presetSpeed/20
  let reset : Prop := 100 ≤ v1
  let v2 : ℚ := if reset then 0 else v1
  let a2 : ℚ := if reset then ((⌊ctx.rnd 0 * 21⌋ : ℤ) : ℚ) else st.a
  let b2 : ℚ := if reset then ((⌊ctx.rnd 1 * 21⌋ : ℤ) : ℚ) else st.b_
  let c2 : ℚ := if reset then ((⌊350 + ctx.rnd 2 * max 1 (h - 400)⌋ : ℤ) : ℚ) else st.c
  let ang := v2 * ctx.piq / 50
  let arcOp : DrawOp :=
    if a2 ≤ 10 ∧ b2 ≤ 10 then
      arcWorld ctx (w + tx) (h/2 + ty) c2 (ang - ctx.piq/2) (ang + ctx.piq/2)
    else if a2 ≤ 10 ∧ 10 < b2 then
      arcWorld ctx (w/2 + tx) (h + ty) c2 ang (ang + ctx.piq)
    else if 10 < a2 ∧ b2 ≤ 10 then
      arcWorld ctx (0 + tx) (h/2 + ty) c2 (ang + ctx.piq/2) (ang + 3*ctx.piq/2)
    else
      arcWorld ctx (w/2 + tx) (0 + ty) c2 (ang - ctx.piq) ang
  ({ st with v := v2, a := a2, b_ := b2, c := c2 }, pre ++ [arcOp])

/-- case 21: Sin + Rays. -/
def drawCase21 (ctx : Ctx) (cx cy size tx ty : ℚ) (st : St) : St × List DrawOp :=
  let w := ctx.visualW/ctx.DPR
  let p := (List.range (jsLoopCount (w/16))).foldl (fun (p : ℚ × List DrawOp) (f : ℕ) =>
    let colOp : DrawOp :=
      if f % 14 < 1 then .fillStyleRGBA ctx.multiColorClr (qclamp 1 0 1)
      else .fillStyleRGBA ctx.presetColor (qclamp (ctx.presetBrightness/200) 0 1)
    let x := 16*(f : ℚ) + tx
    let y := cy + ty + 4.5*ctx.presetSize * ctx.sinq (p.1 - (f : ℚ)/15)
    (p.1 + ctx.presetSpeed/90000,
     p.2 ++ [colOp, fillCircleWorld ctx x y 40])) (st.v, [])
  ({ st with v := p.1 }, p.2)

/-- case 22: Rot Lines.  m advances by exactly 1 per frame. -/
def drawCase22 (ctx : Ctx) (cx cy size tx ty : ℚ) (st : St) : St × List DrawOp :=
  let v := st.v + ctx.presetSpeed/3000
  let w := ctx.visualW/ctx.DPR
  let h := ctx.H/ctx.DPR
  let row := fun (sign : ℚ) =>
    (List.range 17).foldl (fun acc (k : ℕ) =>
      let r : ℤ := (k : ℤ) - 8
      let col := if ctx.multiColor then
          (if r % 2 = 0 then ctx.presetColor else ctx.multiColorClr)
        else ctx.presetColor
      let x1 := (st.m + (r : ℚ)*w/8) - w/2
      let x2 := (st.m + ((r : ℚ)+1)*w/8) - w/2
      let yy := cy + ty + sign * (ctx.presetSize*h/200 - 30)
      acc ++ [setStrokeColor ctx col, strokeLineWorld ctx (cx+tx+x1) yy (cx+tx+x2) yy]) []
  let ops := [DrawOp.lineWidth ((50 + 0.5*ctx.presetSize) * ctx.DPR)] ++ row (-1) ++ row 1
  let m1 := st.m + 1
  ({ st with v := v, m := if w - 50 ≤ m1 then -50 else m1 }, ops)

/-- case 23: Solid. -/
def drawCase23 (ctx : Ctx) (cx cy size tx ty : ℚ) (st : St) : St × List DrawOp :=
  (st, [.resetTransform,
        .fillStyleRGBA ctx.presetColor (qclamp (ctx.presetBrightness/100) 0 1),
        .fillRect 0 0 ctx.visualW ctx.H])

/-- case 24: 4 Scan. v advances after the draws. -/
def drawCase24 (ctx : Ctx) (cx cy size tx ty : ℚ) (st : St) : St × List DrawOp :=
  let w := ctx.visualW/ctx.DPR
  let h := ctx.H/ctx.DPR
  let sp := 500*st.v
  let rr := ctx.presetSize*h/240
  let sx := rr * ctx.sinq sp
  let cy1 := h/4 + ty
  let cy2 := 3*h/4 + ty
  let cx1 := w/4 + tx
  let cx2 := 3*w/4 + tx
  let ops :=
    [DrawOp.lineWidth ((0.8*ctx.presetSize) * ctx.DPR),
     setStrokeColor ctx ctx.presetColor,
     strokeLineWorld ctx (cx1+sx) (cy1 - rr*ctx.cosq sp) (cx1-sx) (cy1 - rr*ctx.cosq sp),
     strokeLineWorld ctx (cx2+sx) (cy2 - rr*ctx.cosq sp) (cx2-sx) (cy2 - rr*ctx.cosq sp)] ++
    (if ctx.multiColor then [setStrokeColor ctx ctx.multiColorClr] else []) ++
    [strokeLineWorld ctx (cx2-sx) (cy1 + rr*ctx.cosq sp) (cx2-sx) (cy1 - rr*ctx.cosq sp),
     strokeLineWorld ctx (cx1-sx) (cy2 + rr*ctx.cosq sp) (cx1-sx) (cy2 - rr*ctx.cosq sp)]
  ({ st with v := st.v + ctx.presetSpeed/360000 }, ops)

/-- case 25: 4 Rot. v advances after the draws. -/
def drawCase25 (ctx : Ctx) (cx cy size tx ty : ℚ) (st : St) : St × List DrawOp :=
  let w := ctx.visualW/ctx.DPR
  let h := ctx.H/ctx.DPR
  let sp := 500*st.v
  let rr := ctx.presetSize*h/240
  let cy1 := h/4 + ty
  let cy2 := 3*h/4 + ty
  let cx1 := w/4 + tx
  let cx2 := 3*w/4 + tx
  let ops :=
    [DrawOp.lineWidth ((0.8*ctx.presetSize) * ctx.DPR),
     setStrokeColor ctx ctx.presetColor,
     strokeLineWorld ctx (cx1 + rr*ctx.sinq sp) (cy1 + rr*ctx.cosq sp)
       (cx1 - rr*ctx.sinq sp) (cy1 - rr*ctx.cosq sp),
     strokeLineWorld ctx (cx2 + rr*ctx.sinq sp) (cy2 + rr*ctx.cosq sp)
       (cx2 - rr*ctx.sinq sp) (cy2 - rr*ctx.cosq sp)] ++
    (if ctx.multiColor then [setStrokeColor ctx ctx.multiColorClr] else []) ++
    [strokeLineWorld ctx (cx2 + rr*ctx.cosq sp) (cy1 + rr*ctx.sinq sp)
       (cx2 - rr*ctx.cosq sp) (cy1 - rr*ctx.sinq sp),
     strokeLineWorld ctx (cx1 + rr*ctx.cosq sp) (cy2 + rr*ctx.sinq sp)
       (cx1 - rr*ctx.cosq sp) (cy2 - rr*ctx.sinq sp)]
  ({ st with v := st.v + ctx.presetSpeed/360000 }, ops)

/-- case 26: 4 Rings. -/
def drawCase26 (ctx : Ctx) (cx cy size tx ty : ℚ) (st : St) : St × List DrawOp :=
  let v := st.v + ctx.presetSpeed/4000
  let w := ctx.visualW/ctx.DPR
  let h := ctx.H/ctx.DPR
  let ops := (List.range 4).foldl (fun acc (q : ℕ) =>
    let qx := if q % 2 = 0 then w/4 else 3*w/4
    let qy := if q < 2 then h/4 else 3*h/4
    let rot := if q = 0 ∨ q = 3 then v else -v
    (List.range 18).foldl (fun acc2 (i : ℕ) =>
      let r := (ctx.presetSize*0.6 + 3)*h/120
      let a2 := (i : ℚ) * ctx.piq / 9 + rot
      acc2 ++ [setFillColor ctx (altColor ctx i),
               fillCircleWorld ctx (qx + tx + r*ctx.sinq a2) (qy + ty + r*ctx.cosq a2)
                 (0.25*ctx.presetSize + 3)]) acc) []
  ({ st with v := v }, ops)

/-- case 27: Crazy Rings. -/
def drawCase27 (ctx : Ctx) (cx cy size tx ty : ℚ) (st : St) : St × List DrawOp :=
  let v := st.v + ctx.presetSpeed/20000
  let w := ctx.visualW/ctx.DPR
  let h := ctx.H/ctx.DPR
  let ops := (List.range 2).foldl (fun accx (xx : ℕ) =>
    (List.range 2).foldl (fun acc (yy : ℕ) =>
      let qx := (2*(xx : ℚ)+1)*w/4
      let qy := (2*(yy : ℚ)+1)*h/4
      let rot := v * (1 + (xx : ℚ) - (yy : ℚ))
      (List.range 18).foldl (fun acc2 (i : ℕ) =>
        let r := (ctx.presetSize + 40)*h/240
        let a2 := (i : ℚ) * ctx.piq / 9 + rot
        acc2 ++ [setFillColor ctx (altColor ctx (i+xx+yy)),
                 fillCircleWorld ctx (qx + tx + r*ctx.sinq a2) (qy + ty + r*ctx.cosq a2)
                   (0.15*(ctx.presetSize + 40))]) acc) accx) []
  ({ st with v := v }, ops)

/-- case 28: Ring Scan. -/
def drawCase28 (ctx : Ctx) (cx cy size tx ty : ℚ) (st : St) : St × List DrawOp :=
  let v := st.v + ctx.presetSpeed/800
  let w := ctx.visualW/ctx.DPR
  let h := ctx.H/ctx.DPR
  let x1 := cx + tx - ctx.presetSize*((w-45)/250) * ctx.cosq v
  let y1 := cy + ty + ctx.presetSize*((h-45)/250) * ctx.sinq v
  let x2 := cx + tx + ctx.presetSize*((w-60)/190) * ctx.cosq v
  let y2 := cy + ty + ctx.presetSize*((h-60)/190) * ctx.sinq v
  let ops :=
    [setFillColor ctx ctx.presetColor, fillCircleWorld ctx x1 y1 22.5] ++
    (if ctx.multiColor then [setFillColor ctx ctx.multiColorClr] else []) ++
    [fillCircleWorld ctx x2 y2 30]
  ({ st with v := v }, ops)

/-- case 29: Tunnel Rect.  Uses m before advancing it; wraps m at 220 to 0. -/
def drawCase29 (ctx : Ctx) (cx cy size tx ty : ℚ) (st : St) : St × List DrawOp :=
  let w := ctx.visualW/ctx.DPR
  let h := ctx.H/ctx.DPR
  let cx0 := cx + tx
  let cy0 := cy + ty
  let draw : List DrawOp :=
    if 110 ≤ st.m then
      [.lineWidth (max 0 ((ctx.presetSize+1)*(220 - st.m)/110) * ctx.DPR),
       setStrokeColor ctx ctx.multiColorClr,
       strokeRectCenteredWorld ctx cx0 cy0 ((220 - st.m)*w/100) ((220 - st.m)*h/100)]
    else
      [.lineWidth ((ctx.presetSize+1)*st.m/110 * ctx.DPR),
       setStrokeColor ctx ctx.presetColor,
       strokeRectCenteredWorld ctx cx0 cy0 (st.m*w/100) (st.m*h/100)]
  let m1 := st.m + ctx.presetSpeed/40
  ({ st with m := if 220 ≤ m1 then 0 else m1 }, [DrawOp.fillStyleClear] ++ draw)

/-- case 30: Dot Grid. -/
def drawCase30 (ctx : Ctx) (cx cy size tx ty : ℚ) (st : St) : St × List DrawOp :=
  let v := st.v + ctx.presetSpeed/1200
  let w := ctx.visualW/ctx.DPR
  let dotSize := qlerp 10 (w/18) (ctx.presetSize/100)
  let ops := (List.range 10).foldl (fun acci (i : ℕ) =>
    (List.range 10).foldl (fun acc (j : ℕ) =>
      let brightVal := qclamp (-100 + 355 * ctx.sinq (v + 31*((i : ℚ)+(j : ℚ)))) 0
        (ctx.presetBrightness*255/100)
      let alpha2 := qclamp (brightVal/255) 0 1
      let col := if ctx.multiColor ∧ (i+j) % 2 = 1 then ctx.multiColorClr else ctx.presetColor
      acc ++ [DrawOp.fillStyleRGBA col alpha2,
              fillCircleWorld ctx ((i : ℚ)*w/10 + w/30 + tx) ((j : ℚ)*w/10 + w/30 + ty)
                (dotSize/2)]) acci) []
  ({ st with v := v }, ops)

/-- The inner helper drawQuadLED of case 31: up to four LED fillRects. -/
def drawQuadLED (ctx : Ctx) (x y brightPct : ℚ) : List DrawOp :=
  let SIZE : ℚ := ((round (8*(ctx.presetSize+50)/100) : ℤ) : ℚ)
  let base := ctx.presetColor
  let alt := if ctx.multiColor then ctx.multiColorClr else ctx.presetColor
  let a := qclamp (brightPct/100) 0 1
  (if 0 < base.r ∨ 0 < alt.r then
     [DrawOp.fillStyleRGBA ⟨255, 0, 0⟩ a,
      .fillRect (worldToCanvasX ctx (x-SIZE-1)) (worldToCanvasY ctx (y-SIZE-1))
        (SIZE*ctx.DPR) (SIZE*ctx.DPR)]
   else []) ++
  (if 0 < base.g ∨ 0 < alt.g then
     [DrawOp.fillStyleRGBA ⟨0, 255, 0⟩ a,
      .fillRect (worldToCanvasX ctx (x+1)) (worldToCanvasY ctx (y-SIZE-1))
        (SIZE*ctx.DPR) (SIZE*ctx.DPR)]
   else []) ++
  (if 0 < base.b ∨ 0 < alt.b then
     [DrawOp.fillStyleRGBA ⟨0, 0, 255⟩ a,
      .fillRect (worldToCanvasX ctx (x-SIZE-1)) (worldToCanvasY ctx (y+1))
        (SIZE*ctx.DPR) (SIZE*ctx.DPR)]
   else []) ++
  (if 0 < base.r ∧ 0 < base.g ∧ 0 < base.b then
     [DrawOp.fillStyleRGBA ⟨255, 255, 255⟩ a,
      .fillRect (worldToCanvasX ctx (x+1)) (worldToCanvasY ctx (y+1))
        (SIZE*ctx.DPR) (SIZE*ctx.DPR)]
   else [])

/-- case 31: Quad LED. -/
def drawCase31 (ctx : Ctx) (cx cy size tx ty : ℚ) (st : St) : St × List DrawOp :=
  let LEN := 5*(ctx.H/ctx.DPR)/40
  let v := st.v + qlerp (-0.06) 0.06 (ctx.presetSpeed/100)
  let w := ctx.visualW/ctx.DPR
  let h := ctx.H/ctx.DPR
  let clusters : List (ℚ × ℚ × ℚ) :=
    [(w*14/40 + tx, h*4/12 + ty, 0),
     (w*26/40 + tx, h*4/12 + ty, 2*ctx.piq/3),
     (w*20/40 + tx, h*8/12 + ty, 4*ctx.piq/3)]
  let ops := clusters.foldl (fun acc cl =>
    let s := ctx.sinq (3.0*v + cl.2.2)
    let BRIGHT := if 0.2 < s then qlerp 100 0 ((s - 0.2)/(1 - 0.2)) else ctx.presetBrightness
    (List.range 5).foldl (fun acce (e : ℕ) =>
      (List.range 5).foldl (fun acc2 (f : ℕ) =>
        if ¬((e = 0 ∧ f = 0) ∨ (e = 4 ∧ f = 0) ∨ (e = 0 ∧ f = 4) ∨
             (e = 4 ∧ f = 4) ∨ (e = 2 ∧ f = 2)) then
          let x := cl.1 + (LEN*(e : ℚ) - 2*LEN) * ctx.cosq v - (LEN*(f : ℚ) - 2*LEN) * ctx.sinq v
          let y := cl.2.1 + (LEN*(e : ℚ) - 2*LEN) * ctx.sinq v + (LEN*(f : ℚ) - 2*LEN) * ctx.cosq v
          acc2 ++ drawQuadLED ctx x y ((round (BRIGHT*ctx.presetBrightness/100) : ℤ) : ℚ)
        else acc2) acce) acc) []
  ({ st with v := v }, ops)

/-- case 32: Circle Spin. -/
def drawCase32 (ctx : Ctx) (cx cy size tx ty : ℚ) (st : St) : St × List DrawOp :=
  let v := st.v + ctx.presetSpeed/2000
  let h := ctx.H/ctx.DPR
  let radius := qlerp 60 (h*0.35) (ctx.presetSize/100)
  let pre : List DrawOp := [.lineWidth (qlerp 4 60 (ctx.presetSize/100) * ctx.DPR)]
  let draw : List DrawOp :=
    if ctx.multiColor then
      (List.range 8).foldl (fun acc (i : ℕ) =>
        let start := v + (i : ℚ) * ctx.piq / 4
        acc ++ [setStrokeColor ctx (if i % 2 = 0 then ctx.presetColor else ctx.multiColorClr),
                arcWorld ctx (cx + tx) (cy + ty) (radius*2) start (start + ctx.piq/4)]) []
    else
      [setStrokeColor ctx ctx.presetColor,
       arcWorld ctx (cx + tx) (cy + ty) (radius*2) 0 (ctx.piq*2)]
  ({ st with v := v }, pre ++ draw)

/-- case 33: Square Spin.  Advances v and the dedicated persistent _sqSpin,
    then strokes a dashed square with the two-pass dash trick. -/
def drawCase33 (ctx : Ctx) (cx cy size tx ty : ℚ) (st : St) : St × List DrawOp :=
  let v := st.v + ctx.presetSpeed/2000
  let sqSpin := st.sqSpin + (ctx.presetSpeed/60000) * 20.0
  let half := qlerp 80 (0.38 * min (ctx.visualW/ctx.DPR) (ctx.H/ctx.DPR)) (ctx.presetSize/100)
  let totalSeg : ℕ := max 4 (6*4)
  let sidePx := 2 * half * ctx.DPR
  let segLen := (4 * sidePx) / (totalSeg : ℚ)
  let anim := -(v * segLen * 2.0)
  let ops :=
    [DrawOp.fillStyleClear,
     .lineWidth (qlerp 4 60 (ctx.presetSize/100) * ctx.DPR),
     .lineCapRound, .lineJoinRound,
     .save, .resetTransform,
     .translate ((cx + tx) * ctx.DPR) ((cy + ty) * ctx.DPR),
     .rotate sqSpin,
     .setDash segLen segLen, .dashOffset anim,
     .pathRect (-sidePx/2) (-sidePx/2) sidePx sidePx] ++
    (if ctx.multiColor then
       [setStrokeColor ctx ctx.presetColor, .strokePath,
        .dashOffset (anim - segLen),
        setStrokeColor ctx ctx.multiColorClr, .strokePath]
     else [setStrokeColor ctx ctx.presetColor, .strokePath]) ++
    [.restore, .restoreLineDash, .restoreDashOffset, .restoreLineCap, .restoreLineJoin]
  ({ st with v := v, sqSpin := sqSpin }, ops)

/-- case 34: Triangle Spin.  Advances v and the dedicated persistent _triSpin. -/
def drawCase34 (ctx : Ctx) (cx cy size tx ty : ℚ) (st : St) : St × List DrawOp :=
  let v := st.v + ctx.presetSpeed/2000
  let triSpin := st.triSpin + (ctx.presetSpeed/60000) * 20.0
  let r := qlerp 90 (0.42 * min (ctx.visualW/ctx.DPR) (ctx.H/ctx.DPR)) (ctx.presetSize/100)
  let totalSeg : ℕ := max 3 (6*3)
  let rrPx := r * ctx.DPR
  let p1 : ℚ × ℚ := (0, -rrPx)
  let p2 : ℚ × ℚ := (0.866*rrPx, 0.5*rrPx)
  let p3 : ℚ × ℚ := (-0.866*rrPx, 0.5*rrPx)
  let d12 := ctx.hypq (p2.1 - p1.1) (p2.2 - p1.2)
  let d23 := ctx.hypq (p3.1 - p2.1) (p3.2 - p2.2)
  let d31 := ctx.hypq (p1.1 - p3.1) (p1.2 - p3.2)
  let segLen := (d12 + d23 + d31) / (totalSeg : ℚ)
  let anim := -(v * segLen * 2.0)
  let ops :=
    [DrawOp.fillStyleClear,
     .lineWidth (qlerp 4 60 (ctx.presetSize/100) * ctx.DPR),
     .lineCapRound, .lineJoinRound,
     .save, .resetTransform,
     .translate ((cx + tx) * ctx.DPR) ((cy + ty) * ctx.DPR),
     .rotate triSpin,
     .setDash segLen segLen, .dashOffset anim,
     .pathMove p1.1 p1.2, .pathLine p2.1 p2.2, .pathLine p3.1 p3.2, .pathClose] ++
    (if ctx.multiColor then
       [setStrokeColor ctx ctx.presetColor, .strokePath,
        .dashOffset (anim - segLen),
        setStrokeColor ctx ctx.multiColorClr, .strokePath]
     else [setStrokeColor ctx ctx.presetColor, .strokePath]) ++
    [.restore, .restoreLineDash, .restoreDashOffset, .restoreLineCap, .restoreLineJoin]
  ({ st with v := v, triSpin := triSpin }, ops)

/-- drawPreset(idx, feats, motion): computes the shared frame locals, bails
    out before the switch when the master enable flag is off, and otherwise
    dispatches on the preset index; an unknown index is a no-op. -/
def drawPreset (ctx : Ctx) (idx : ℕ) (feats : AudioFeatures) (motion : ℚ × ℚ) (st : St) :
    St × List DrawOp :=
  let cx := (ctx.visualW/ctx.DPR)/2
  let cy := (ctx.H/ctx.DPR)/2
  let size := 0.9*ctx.presetSize + 10
  let tx := motion.1
  let ty := motion.2
  if ctx.onoff = false then (st, []) else
  if idx = 0 then drawCase0 ctx cx cy size tx ty st
  else if idx = 1 then drawCase1 ctx cx cy size tx ty st
  else if idx = 2 then drawCase2 ctx cx cy size tx ty st
  else if idx = 3 then drawCase3 ctx cx cy size tx ty st
  else if idx = 4 then drawCase4 ctx cx cy size tx ty st
  else if idx = 5 then drawCase5 ctx cx cy size tx ty st
  else if idx = 6 then drawCase6 ctx cx cy size tx ty st
  else if idx = 7 then drawCase7 ctx cx cy size tx ty st
  else if idx = 8 then drawCase8 ctx cx cy size tx ty st
  else if idx = 9 then drawCase9 ctx cx cy size tx ty st
  else if idx = 10 then drawCase10 ctx cx cy size tx ty st
  else if idx = 11 then drawCase11 ctx cx cy size tx ty st
  else if idx = 12 then drawCase12 ctx cx cy size tx ty st
  else if idx = 13 then drawCase13 ctx cx cy size tx ty st
  else if idx = 14 then drawCase14 ctx cx cy size tx ty st
  else if idx = 15 then drawCase15 ctx cx cy size tx ty st
  else if idx = 16 then drawCase16 ctx cx cy size tx ty st
  else if idx = 17 then drawCase17 ctx cx cy size tx ty st
  else if idx = 18 then drawCase18 ctx cx cy size tx ty st
  else if idx = 19 then drawCase19 ctx cx cy size tx ty st
  else if idx = 20 then drawCase20 ctx cx cy size tx ty st
  else if idx = 21 then drawCase21 ctx cx cy size tx ty st
  else if idx = 22 then drawCase22 ctx cx cy size tx ty st
  else if idx = 23 then drawCase23 ctx cx cy size tx ty st
  else if idx = 24 then drawCase24 ctx cx cy size tx ty st
  else if idx = 25 then drawCase25 ctx cx cy size tx ty st
  else if idx = 26 then drawCase26 ctx cx cy size tx ty st
  else if idx = 27 then drawCase27 ctx cx cy size tx ty st
  else if idx = 28 then drawCase28 ctx cx cy size tx ty st
  else if idx = 29 then drawCase29 ctx cx cy size tx ty st
  else if idx = 30 then drawCase30 ctx cx cy size tx ty st
  else if idx = 31 then drawCase31 ctx cx cy size tx ty st
  else if idx = 32 then drawCase32 ctx cx cy size tx ty st
  else if idx = 33 then drawCase33 ctx cx cy size tx ty st
  else if idx = 34 then drawCase34 ctx cx cy size tx ty st
  else (st, [])

/-- The UI-facing preset list; index positions match the drawPreset cases. -/
def presetNames : List String :=
  ["Ring (sin)", "Ring (rot)", "3 Rings", "Rand Lines", "Rand Ring", "Sinus",
   "Sin Blocks", "Cross", "Discoball", "Rand Circles", "Rand Rings", "Scan |",
   "Scan =", "2 Scan", "PingPong", "Mouse Spot", "Multi |", "Multi =",
   "Sin Multi |", "Sin Multi =", "Half Arc", "Sin + Rays", "Rot Lines", "Solid",
   "4 Scan", "4 Rot", "4 Rings", "Crazy Rings", "Ring Scan", "Tunnel Rect",
   "Dot Grid", "Quad LED", "Circle Spin", "Square Spin", "Triangle Spin"]

/-- presetCount(): the length of the preset name list (35). -/
def presetCount : ℕ := presetNames.length

/-- initDiscoball(rng): regenerate the 1000-entry random layout arrays; rnds
    is the stream of Math.random() draws, consumed x-then-y per index. -/
def initDiscoball (ctx : Ctx) (rnds : ℕ → ℚ) (st : St) : St :=
  { st with
    ranX := fun i => if i < 1000 then
        ((⌊(rnds (2*i) * 2 - 1) * (0.71*ctx.visualW/ctx.DPR)⌋ : ℤ) : ℚ)
      else st.ranX i,
    ranY := fun i => if i < 1000 then
        ((⌊(rnds (2*i+1) * 2 - 1) * (0.71*ctx.visualW/ctx.DPR)⌋ : ℤ) : ℚ)
      else st.ranY i }

/-- selectPreset(idx): clamp the requested index into [0, presetCount-1];
    a request for the already-active preset returns unchanged; otherwise the
    preset number is set, v is re-seeded to 0.2 + random*0.8, m is zeroed,
    and activating preset 8 regenerates the point cloud.  rnd is the
    Math.random() draw used for v; cloudRnds feeds initDiscoball. -/
def selectPreset (ctx : Ctx) (idx : ℤ) (rnd : ℚ) (cloudRnds : ℕ → ℚ) (st : St) : St :=
  let j : ℤ := max 0 (min ((presetCount : ℤ) - 1) idx)
  if j = (st.presetNumber : ℤ) then st
  else
    let st1 := { st with presetNumber := j.toNat, v := 0.2 + rnd*0.8, m := 0 }
    if j.toNat = 8 then initDiscoball ctx cloudRnds st1 else st1

/-- The angle of ring dot i used by preset 1 (Ring (rot)): i*PI/9 + v. -/
def ringDotAngle (ctx : Ctx) (i : ℕ) (vv : ℚ) : ℚ := (i : ℚ) * ctx.piq / 9 + vv

/-- Run several consecutive frames of one preset, one frame per listed
    timestamp, with everything in the context except the clock fixed. -/
def framesAt (ctx : Ctx) (idx : ℕ) (feats : AudioFeatures) (motion : ℚ × ℚ)
    (times : List ℚ) (st : St) : St :=
  times.foldl (fun s t => (drawPreset { ctx with now := t } idx feats motion s).1) st

/-- Run several consecutive frames of one preset, one frame per listed speed
    value, with everything in the context except the speed control fixed. -/
def framesAtSpeeds (ctx : Ctx) (idx : ℕ) (feats : AudioFeatures) (motion : ℚ × ℚ)
    (speeds : List ℚ) (st : St) : St :=
  speeds.foldl (fun s sp => (drawPreset { ctx with presetSpeed := sp } idx feats motion s).1) st

/- =====================
   Concrete instances used by witnesses and counterexamples
   ===================== -/

/-- The all-zero audio feature snapshot. -/
def feats0 : AudioFeatures := ⟨0, 0, 0, 0, 0⟩

def kreis0 : Kreis := ⟨300, 300, 15, 15⟩

/-- A concrete render context: a 1000 by 1000 world viewport at DPR 1 with
    the default control values of the source (speed 30, size 50, brightness
    100, multicolor on, colors blue and white), the master flag on, and
    arbitrary concrete values for the abstract trig/random parameters. -/
def ctx0 : Ctx :=
  { visualW := 1000, H := 1000, DPR := 1, presetSize := 50, presetSpeed := 30,
    presetBrightness := 100, multiColor := true, presetColor := ⟨0, 0, 255⟩,
    multiColorClr := ⟨255, 255, 255⟩, onoff := true, now := 100, mouseXw := 0,
    mouseYw := 0, transitionSpeed := 55, rnd := fun _ => 1/2,
    sinq := fun _ => 0, cosq := fun _ => 0, hypq := fun _ _ => 0, piq := 3 }

def ctxOff : Ctx := { ctx0 with onoff := false }

/-- ctx0 with the speed control at 0 (the frozen-randomization scenario). -/
def ctxFrozen : Ctx := { ctx0 with presetSpeed := 0 }

/-- ctx0 with speed 0 and the clock at exactly 1e9 ms. -/
def ctxC6 : Ctx := { ctx0 with presetSpeed := 0, now := 1000000000 }

/-- A concrete persistent state: preset 1 active, v at its initial 0.2. -/
def st0 : St :=
  { presetNumber := 1, v := 0.2, m := 0, a := 0, b_ := 0, c := 0, d := 0,
    timeRand := 0, sqSpin := 0, triSpin := 0,
    ranX := fun _ => 0, ranY := fun _ => 0, spotlight := fun _ => kreis0 }

/-- A motion-blend state halfway through a blend from the off path to the
    square path (blend started at time 0). -/
def msBlend : MotionSt :=
  { motionPhase := 0, fromMode := .off, toMode := .square, blendStart := 0, blending := true }

/-- 200 frame timestamps, 16 ms apart. -/
def zeroStreamTimes : List ℚ := (List.range 200).map (fun i => 16*(i : ℚ))

/- A concrete mid-blend retarget scenario for the motion blender: msBlend is
   halfway (432.5 ms into the 865 ms blend window of transitionSpeed 55) from
   the off path to the square path; the target is then switched to the
   triangle path and one 16 ms frame later the offset is read again, once
   with and once without the switch. -/

def msAfter1 : MotionSt := (computeMotionOffset ctxFrozen (865/2) (16/1000) msBlend).1

def offBefore : ℚ × ℚ := (computeMotionOffset ctxFrozen (865/2) (16/1000) msBlend).2

def msRetarget : MotionSt := setMotionMode .triangle (865/2) msAfter1

def offSwitch : ℚ × ℚ := (computeMotionOffset ctxFrozen (897/2) (16/1000) msRetarget).2

def offNoSwitch : ℚ × ℚ := (computeMotionOffset ctxFrozen (897/2) (16/1000) msAfter1).2

/- A concrete frame sequence in which preset 11 is selected and drawn between
   two frames of preset 1: frame of preset 1, switch to 11, frame of 11,
   switch back to 1, frame of preset 1 (every random draw is 1/2). -/

def c1Frame1 : St := (drawPreset ctx0 1 feats0 (0, 0) st0).1

def c1State2 : St := selectPreset ctx0 11 (1/2) (fun _ => 1/2) c1Frame1

def c1Frame2 : St := (drawPreset ctx0 11 feats0 (0, 0) c1State2).1

def c1State3 : St := selectPreset ctx0 1 (1/2) (fun _ => 1/2) c1Frame2

def c1Frame3 : St := (drawPreset ctx0 1 feats0 (0, 0) c1State3).1

/- =====================
   Helper lemmas
   ===================== -/

/-- When the master enable flag is off, drawPreset returns before the switch:
    the state is untouched and nothing is drawn. -/
theorem drawPreset_off (ctx : Ctx) (idx : ℕ) (feats : AudioFeatures)
    (motion : ℚ × ℚ) (st : St) (h : ctx.onoff = false) :
    drawPreset ctx idx feats motion st = (st, []) := by
  simp [drawPreset, h]

/-- One update step rewrites (ema, dev) by the pure recurrence. -/
theorem update_emaDev (bd : BeatDetector) (e t s mi : ℚ) :
    ((bd.update e t s mi).1.ema, (bd.update e t s mi).1.dev)
      = emaDevStep (bd.ema, bd.dev) e := rfl

/-- lastThr after one update is the threshold formula at the updated pair. -/
theorem update_lastThr (bd : BeatDetector) (e t s mi : ℚ) :
    (bd.update e t s mi).1.lastThr
      = thrOf s ((bd.update e t s mi).1.ema, (bd.update e t s mi).1.dev) := by
  simp [BeatDetector.update, thrOf]

/-- The (ema, dev) pair of a run depends only on the energy samples. -/
theorem beatRun_emaDev (inputs : List (ℚ × ℚ)) :
    ∀ (bd : BeatDetector) (s mi : ℚ),
      ((beatRun bd inputs s mi).ema, (beatRun bd inputs s mi).dev)
        = emaDevRun (bd.ema, bd.dev) (inputs.map Prod.fst) := by
  induction inputs with
  | nil => intro bd s mi; rfl
  | cons p rest ih =>
      intro bd s mi
      have h1 : beatRun bd (p :: rest) s mi
          = beatRun ((bd.update p.1 p.2 s mi).1) rest s mi := rfl
      have h2 : emaDevRun (bd.ema, bd.dev) ((p :: rest).map Prod.fst)
          = emaDevRun (emaDevStep (bd.ema, bd.dev) p.1) (rest.map Prod.fst) := rfl
      rw [h1, h2, ← update_emaDev bd p.1 p.2 s mi]
      exact ih _ s mi

/-- lastThr after a nonempty run is the threshold formula at the final
    (ema, dev) pair, which is independent of sensitivity. -/
theorem beatRun_lastThr (inputs : List (ℚ × ℚ)) :
    ∀ (bd : BeatDetector) (s mi : ℚ), inputs ≠ [] →
      (beatRun bd inputs s mi).lastThr
        = thrOf s (emaDevRun (bd.ema, bd.dev) (inputs.map Prod.fst)) := by
  induction inputs with
  | nil => intro bd s mi h; exact absurd rfl h
  | cons p rest ih =>
      intro bd s mi _
      cases rest with
      | nil =>
          have h1 : beatRun bd [p] s mi = (bd.update p.1 p.2 s mi).1 := rfl
          rw [h1, update_lastThr, update_emaDev]
          rfl
      | cons q rest2 =>
          have h1 : beatRun bd (p :: q :: rest2) s mi
              = beatRun ((bd.update p.1 p.2 s mi).1) (q :: rest2) s mi := rfl
          have h2 : emaDevRun (bd.ema, bd.dev) ((p :: q :: rest2).map Prod.fst)
              = emaDevRun (emaDevStep (bd.ema, bd.dev) p.1) ((q :: rest2).map Prod.fst) := rfl
          rw [h1, ih _ s mi (by simp), h2, ← update_emaDev bd p.1 p.2 s mi]

/-- dev stays nonnegative along any run. -/
theorem emaDevRun_dev_nonneg (es : List ℚ) :
    ∀ p : ℚ × ℚ, 0 ≤ p.2 → 0 ≤ (emaDevRun p es).2 := by
  induction es with
  | nil => intro p h; exact h
  | cons e rest ih =>
      intro p h
      have h1 : emaDevRun p (e :: rest) = emaDevRun (emaDevStep p e) rest := rfl
      rw [h1]
      apply ih
      have h2 : 0 ≤ |e - (p.1 + 0.06*(e - p.1))| := abs_nonneg _
      simp only [emaDevStep]
      nlinarith [h, h2]

/-- The absolute gate of BeatDetector.update is strictly positive for every
    sensitivity value. -/
theorem gate_pos (s : ℚ) : 0 < qlerp 0.12 0.03 (qclamp s 0 1) := by
  unfold qlerp qclamp
  have h1 : max 0 (min 1 s) ≤ 1 := max_le (by norm_num) (min_le_left _ _)
  nlinarith

/-- A zero-energy sample can never fire: it fails the absolute gate. -/
theorem beat_update_zero_false (bd : BeatDetector) (t s mi : ℚ) :
    (bd.update 0 t s mi).2 = false := by
  have hg := gate_pos s
  have hdec : decide (qlerp 0.12 0.03 (qclamp s 0 1) < (0 : ℚ)) = false := by
    simp [not_lt.mpr hg.le]
  simp [BeatDetector.update, hdec]

/-- The output fold on an all-zero energy stream appends only false. -/
theorem beat_fold_zero (ts : List ℚ) :
    ∀ (bd : BeatDetector) (acc : List Bool) (s mi : ℚ),
      ((ts.map (fun t => ((0 : ℚ), t))).foldl (fun acc2 p =>
          let r := acc2.1.update p.1 p.2 s mi
          (r.1, acc2.2 ++ [r.2])) (bd, acc)).2
        = acc ++ List.replicate ts.length false := by
  induction ts with
  | nil => intro bd acc s mi; simp
  | cons t rest ih =>
      intro bd acc s mi
      simp only [List.map_cons, List.foldl_cons, List.length_cons]
      rw [ih]
      simp [beat_update_zero_false, List.replicate_succ]

/- =====================
   Claim theorems
   ===================== -/

/-- C2: for every preset id, in a frame where the master enable flag onoff is
    false, drawPreset performs no drawing operation and leaves the entire
    persistent state (v, m, a, b_, c, d, timeRand, ranX, ranY, the spin
    angles and every spotlight) unchanged: the frame is a pure no-op. -/
theorem drawPreset_onoff_false_noop (ctx : Ctx) (idx : ℕ) (feats : AudioFeatures)
    (motion : ℚ × ℚ) (st : St) (h : ctx.onoff = false) :
    drawPreset ctx idx feats motion st = (st, []) :=
  drawPreset_off ctx idx feats motion st h

theorem drawPreset_onoff_false_noop_w :
    ctxOff.onoff = false ∧ drawPreset ctxOff 1 feats0 (0, 0) st0 = (st0, []) :=
  ⟨rfl, drawPreset_onoff_false_noop ctxOff 1 feats0 (0, 0) st0 rfl⟩

/-- C3: BeatDetector.update returns true iff (a) at least minIntervalMs
    elapsed since the last accepted beat, (b) energy strictly exceeds the
    previous sample, (c) energy exceeds the adaptive threshold
    ema + k*(dev*1.10 + base) computed from the freshly updated ema/dev, and
    (d) energy exceeds the absolute gate; on a true return lastBeat is set to
    tMs, and ema and dev are updated with smoothing factor 0.06 on every
    call, firing or not. -/
theorem beatDetector_update_spec (bd : BeatDetector) (energy tMs sens01 minIntervalMs : ℚ) :
    ((bd.update energy tMs sens01 minIntervalMs).2 = true ↔
      (minIntervalMs ≤ tMs - bd.lastBeat ∧
       bd.prev < energy ∧
       (bd.ema + 0.06*(energy - bd.ema)) +
         qlerp 2.2 0.6 (qclamp sens01 0 1) *
           ((bd.dev + 0.06*(|energy - (bd.ema + 0.06*(energy - bd.ema))| - bd.dev)) * 1.10 +
            qlerp 0.030 0.008 (qclamp sens01 0 1)) < energy ∧
       qlerp 0.12 0.03 (qclamp sens01 0 1) < energy)) ∧
    (bd.update energy tMs sens01 minIntervalMs).1.ema = bd.ema + 0.06*(energy - bd.ema) ∧
    (bd.update energy tMs sens01 minIntervalMs).1.dev
      = bd.dev + 0.06*(|energy - (bd.ema + 0.06*(energy - bd.ema))| - bd.dev) ∧
    (bd.update energy tMs sens01 minIntervalMs).1.lastBeat
      = (if (bd.update energy tMs sens01 minIntervalMs).2 = true then tMs else bd.lastBeat) := by
  refine ⟨?_, rfl, rfl, rfl⟩
  simp only [BeatDetector.update, Bool.and_eq_true, decide_eq_true_eq]
  tauto

/-- C4: two detectors fed the identical nonempty energy history, one at
    sensitivity 1.0 and one at sensitivity 0.0, end with strictly ordered
    thresholds: lastThr at sensitivity 1.0 is below lastThr at 0.0, because
    ema and dev are sensitivity-independent while k and base decrease in it. -/
theorem beatDetector_threshold_monotone (inputs : List (ℚ × ℚ)) (minIntervalMs : ℚ)
    (h : inputs ≠ []) :
    (beatRun BeatDetector.reset inputs 1 minIntervalMs).lastThr
      < (beatRun BeatDetector.reset inputs 0 minIntervalMs).lastThr := by
  rw [beatRun_lastThr inputs _ _ _ h, beatRun_lastThr inputs _ _ _ h]
  have hd : 0 ≤ (emaDevRun (BeatDetector.reset.ema, BeatDetector.reset.dev)
      (inputs.map Prod.fst)).2 := by
    apply emaDevRun_dev_nonneg
    norm_num [BeatDetector.reset]
  have e1 : qclamp 1 0 1 = (1 : ℚ) := by decide
  have e0 : qclamp 0 0 1 = (0 : ℚ) := by decide
  simp only [thrOf, qlerp, e1, e0]
  nlinarith [hd]

theorem beatDetector_threshold_monotone_w :
    ([((0.12 : ℚ), (0 : ℚ))] : List (ℚ × ℚ)) ≠ [] ∧
    (beatRun BeatDetector.reset [(0.12, 0)] 1 0).lastThr
      < (beatRun BeatDetector.reset [(0.12, 0)] 0 0).lastThr :=
  ⟨by simp, beatDetector_threshold_monotone [(0.12, 0)] 0 (by simp)⟩

/-- C5: a freshly reset detector fed a constant all-zero energy stream for
    200 consecutive calls (any timestamps, any sensitivity in [0,1], any
    refractory interval) never returns true on any call. -/
theorem beatDetector_zero_stream_never_fires (sens01 minIntervalMs : ℚ) (ts : List ℚ)
    (h0 : 0 ≤ sens01) (h1 : sens01 ≤ 1) (hlen : ts.length = 200) :
    ∀ b ∈ beatRunOutputs BeatDetector.reset (ts.map (fun t => ((0 : ℚ), t)))
        sens01 minIntervalMs, b = false := by
  intro b hb
  rw [beatRunOutputs, beat_fold_zero ts BeatDetector.reset [] sens01 minIntervalMs] at hb
  simp only [List.nil_append] at hb
  exact List.eq_of_mem_replicate hb

theorem beatDetector_zero_stream_never_fires_w :
    (0 : ℚ) ≤ 0.6 ∧ (0.6 : ℚ) ≤ 1 ∧ zeroStreamTimes.length = 200 ∧
    ∀ b ∈ beatRunOutputs BeatDetector.reset
        (zeroStreamTimes.map (fun t => ((0 : ℚ), t))) 0.6 120, b = false :=
  ⟨by norm_num, by norm_num, by rfl,
   beatDetector_zero_stream_never_fires 0.6 120 zeroStreamTimes (by norm_num) (by norm_num)
     (by rfl)⟩

/- Dispatch lemmas: drawPreset at a literal index with the flag on reduces to
   the corresponding case routine at the shared frame locals. -/

theorem drawPreset_on_1 (ctx : Ctx) (feats : AudioFeatures) (motion : ℚ × ℚ) (st : St)
    (h : ctx.onoff = true) :
    drawPreset ctx 1 feats motion st
      = drawCase1 ctx ((ctx.visualW/ctx.DPR)/2) ((ctx.H/ctx.DPR)/2)
          (0.9*ctx.presetSize + 10) motion.1 motion.2 st := by
  simp [drawPreset, h]

theorem drawPreset_on_3 (ctx : Ctx) (feats : AudioFeatures) (motion : ℚ × ℚ) (st : St)
    (h : ctx.onoff = true) :
    drawPreset ctx 3 feats motion st
      = drawCase3 ctx ((ctx.visualW/ctx.DPR)/2) ((ctx.H/ctx.DPR)/2)
          (0.9*ctx.presetSize + 10) motion.1 motion.2 st := by
  simp [drawPreset, h]

theorem drawPreset_on_4 (ctx : Ctx) (feats : AudioFeatures) (motion : ℚ × ℚ) (st : St)
    (h : ctx.onoff = true) :
    drawPreset ctx 4 feats motion st
      = drawCase4 ctx ((ctx.visualW/ctx.DPR)/2) ((ctx.H/ctx.DPR)/2)
          (0.9*ctx.presetSize + 10) motion.1 motion.2 st := by
  simp [drawPreset, h]

theorem drawPreset_on_9 (ctx : Ctx) (feats : AudioFeatures) (motion : ℚ × ℚ) (st : St)
    (h : ctx.onoff = true) :
    drawPreset ctx 9 feats motion st
      = drawCase9 ctx ((ctx.visualW/ctx.DPR)/2) ((ctx.H/ctx.DPR)/2)
          (0.9*ctx.presetSize + 10) motion.1 motion.2 st := by
  simp [drawPreset, h]

theorem drawPreset_on_10 (ctx : Ctx) (feats : AudioFeatures) (motion : ℚ × ℚ) (st : St)
    (h : ctx.onoff = true) :
    drawPreset ctx 10 feats motion st
      = drawCase10 ctx ((ctx.visualW/ctx.DPR)/2) ((ctx.H/ctx.DPR)/2)
          (0.9*ctx.presetSize + 10) motion.1 motion.2 st := by
  simp [drawPreset, h]

theorem drawPreset_on_11 (ctx : Ctx) (feats : AudioFeatures) (motion : ℚ × ℚ) (st : St)
    (h : ctx.onoff = true) :
    drawPreset ctx 11 feats motion st
      = drawCase11 ctx ((ctx.visualW/ctx.DPR)/2) ((ctx.H/ctx.DPR)/2)
          (0.9*ctx.presetSize + 10) motion.1 motion.2 st := by
  simp [drawPreset, h]

theorem drawPreset_on_16 (ctx : Ctx) (feats : AudioFeatures) (motion : ℚ × ℚ) (st : St)
    (h : ctx.onoff = true) :
    drawPreset ctx 16 feats motion st
      = drawCase16 ctx ((ctx.visualW/ctx.DPR)/2) ((ctx.H/ctx.DPR)/2)
          (0.9*ctx.presetSize + 10) motion.1 motion.2 st := by
  simp [drawPreset, h]

theorem drawPreset_on_17 (ctx : Ctx) (feats : AudioFeatures) (motion : ℚ × ℚ) (st : St)
    (h : ctx.onoff = true) :
    drawPreset ctx 17 feats motion st
      = drawCase17 ctx ((ctx.visualW/ctx.DPR)/2) ((ctx.H/ctx.DPR)/2)
          (0.9*ctx.presetSize + 10) motion.1 motion.2 st := by
  simp [drawPreset, h]

theorem drawPreset_on_33 (ctx : Ctx) (feats : AudioFeatures) (motion : ℚ × ℚ) (st : St)
    (h : ctx.onoff = true) :
    drawPreset ctx 33 feats motion st
      = drawCase33 ctx ((ctx.visualW/ctx.DPR)/2) ((ctx.H/ctx.DPR)/2)
          (0.9*ctx.presetSize + 10) motion.1 motion.2 st := by
  simp [drawPreset, h]

theorem drawPreset_on_34 (ctx : Ctx) (feats : AudioFeatures) (motion : ℚ × ℚ) (st : St)
    (h : ctx.onoff = true) :
    drawPreset ctx 34 feats motion st
      = drawCase34 ctx ((ctx.visualW/ctx.DPR)/2) ((ctx.H/ctx.DPR)/2)
          (0.9*ctx.presetSize + 10) motion.1 motion.2 st := by
  simp [drawPreset, h]

/- Projection lemmas for the persistent fields the claims track. -/

theorem drawCase1_v (ctx : Ctx) (cx cy size tx ty : ℚ) (st : St) :
    (drawCase1 ctx cx cy size tx ty st).1.v = st.v + ctx.presetSpeed/2000 := rfl

theorem drawCase11_v (ctx : Ctx) (cx cy size tx ty : ℚ) (st : St) :
    (drawCase11 ctx cx cy size tx ty st).1.v = st.v + ctx.presetSpeed/1000 := rfl

theorem drawCase33_sqSpin (ctx : Ctx) (cx cy size tx ty : ℚ) (st : St) :
    (drawCase33 ctx cx cy size tx ty st).1.sqSpin
      = st.sqSpin + ctx.presetSpeed/60000 * 20.0 := rfl

theorem drawCase34_triSpin (ctx : Ctx) (cx cy size tx ty : ℚ) (st : St) :
    (drawCase34 ctx cx cy size tx ty st).1.triSpin
      = st.triSpin + ctx.presetSpeed/60000 * 20.0 := rfl

/-- drawPreset never changes the active preset number. -/
theorem drawPreset_pn (ctx : Ctx) (idx : ℕ) (feats : AudioFeatures) (motion : ℚ × ℚ)
    (st : St) :
    (drawPreset ctx idx feats motion st).1.presetNumber = st.presetNumber := by
  by_cases ho : ctx.onoff = false
  · rw [drawPreset_off ctx idx feats motion st ho] <;> rfl
  · simp only [drawPreset]
    rw [if_neg ho]
    by_cases h0 : idx = 0
    · rw [if_pos h0] <;> rfl
    rw [if_neg h0]
    by_cases h1 : idx = 1
    · rw [if_pos h1] <;> rfl
    rw [if_neg h1]
    by_cases h2 : idx = 2
    · rw [if_pos h2] <;> rfl
    rw [if_neg h2]
    by_cases h3 : idx = 3
    · rw [if_pos h3] <;> rfl
    rw [if_neg h3]
    by_cases h4 : idx = 4
    · rw [if_pos h4] <;> rfl
    rw [if_neg h4]
    by_cases h5 : idx = 5
    · rw [if_pos h5] <;> rfl
    rw [if_neg h5]
    by_cases h6 : idx = 6
    · rw [if_pos h6] <;> rfl
    rw [if_neg h6]
    by_cases h7 : idx = 7
    · rw [if_pos h7] <;> rfl
    rw [if_neg h7]
    by_cases h8 : idx = 8
    · rw [if_pos h8] <;> rfl
    rw [if_neg h8]
    by_cases h9 : idx = 9
    · rw [if_pos h9] <;> rfl
    rw [if_neg h9]
    by_cases h10 : idx = 10
    · rw [if_pos h10] <;> rfl
    rw [if_neg h10]
    by_cases h11 : idx = 11
    · rw [if_pos h11] <;> rfl
    rw [if_neg h11]
    by_cases h12 : idx = 12
    · rw [if_pos h12] <;> rfl
    rw [if_neg h12]
    by_cases h13 : idx = 13
    · rw [if_pos h13] <;> rfl
    rw [if_neg h13]
    by_cases h14 : idx = 14
    · rw [if_pos h14] <;> rfl
    rw [if_neg h14]
    by_cases h15 : idx = 15
    · rw [if_pos h15] <;> rfl
    rw [if_neg h15]
    by_cases h16 : idx = 16
    · rw [if_pos h16] <;> rfl
    rw [if_neg h16]
    by_cases h17 : idx = 17
    · rw [if_pos h17] <;> rfl
    rw [if_neg h17]
    by_cases h18 : idx = 18
    · rw [if_pos h18] <;> rfl
    rw [if_neg h18]
    by_cases h19 : idx = 19
    · rw [if_pos h19] <;> rfl
    rw [if_neg h19]
    by_cases h20 : idx = 20
    · rw [if_pos h20] <;> rfl
    rw [if_neg h20]
    by_cases h21 : idx = 21
    · rw [if_pos h21] <;> rfl
    rw [if_neg h21]
    by_cases h22 : idx = 22
    · rw [if_pos h22] <;> rfl
    rw [if_neg h22]
    by_cases h23 : idx = 23
    · rw [if_pos h23] <;> rfl
    rw [if_neg h23]
    by_cases h24 : idx = 24
    · rw [if_pos h24] <;> rfl
    rw [if_neg h24]
    by_cases h25 : idx = 25
    · rw [if_pos h25] <;> rfl
    rw [if_neg h25]
    by_cases h26 : idx = 26
    · rw [if_pos h26] <;> rfl
    rw [if_neg h26]
    by_cases h27 : idx = 27
    · rw [if_pos h27] <;> rfl
    rw [if_neg h27]
    by_cases h28 : idx = 28
    · rw [if_pos h28] <;> rfl
    rw [if_neg h28]
    by_cases h29 : idx = 29
    · rw [if_pos h29] <;> rfl
    rw [if_neg h29]
    by_cases h30 : idx = 30
    · rw [if_pos h30] <;> rfl
    rw [if_neg h30]
    by_cases h31 : idx = 31
    · rw [if_pos h31] <;> rfl
    rw [if_neg h31]
    by_cases h32 : idx = 32
    · rw [if_pos h32] <;> rfl
    rw [if_neg h32]
    by_cases h33 : idx = 33
    · rw [if_pos h33] <;> rfl
    rw [if_neg h33]
    by_cases h34 : idx = 34
    · rw [if_pos h34] <;> rfl
    rw [if_neg h34]

/-- Every case except 33 leaves the square-spin angle untouched. -/
theorem drawPreset_sqSpin_const (ctx : Ctx) (idx : ℕ) (feats : AudioFeatures)
    (motion : ℚ × ℚ) (st : St) (h : idx ≠ 33) :
    (drawPreset ctx idx feats motion st).1.sqSpin = st.sqSpin := by
  by_cases ho : ctx.onoff = false
  · rw [drawPreset_off ctx idx feats motion st ho] <;> rfl
  · simp only [drawPreset]
    rw [if_neg ho]
    by_cases h0 : idx = 0
    · rw [if_pos h0] <;> rfl
    rw [if_neg h0]
    by_cases h1 : idx = 1
    · rw [if_pos h1] <;> rfl
    rw [if_neg h1]
    by_cases h2 : idx = 2
    · rw [if_pos h2] <;> rfl
    rw [if_neg h2]
    by_cases h3 : idx = 3
    · rw [if_pos h3] <;> rfl
    rw [if_neg h3]
    by_cases h4 : idx = 4
    · rw [if_pos h4] <;> rfl
    rw [if_neg h4]
    by_cases h5 : idx = 5
    · rw [if_pos h5] <;> rfl
    rw [if_neg h5]
    by_cases h6 : idx = 6
    · rw [if_pos h6] <;> rfl
    rw [if_neg h6]
    by_cases h7 : idx = 7
    · rw [if_pos h7] <;> rfl
    rw [if_neg h7]
    by_cases h8 : idx = 8
    · rw [if_pos h8] <;> rfl
    rw [if_neg h8]
    by_cases h9 : idx = 9
    · rw [if_pos h9] <;> rfl
    rw [if_neg h9]
    by_cases h10 : idx = 10
    · rw [if_pos h10] <;> rfl
    rw [if_neg h10]
    by_cases h11 : idx = 11
    · rw [if_pos h11] <;> rfl
    rw [if_neg h11]
    by_cases h12 : idx = 12
    · rw [if_pos h12] <;> rfl
    rw [if_neg h12]
    by_cases h13 : idx = 13
    · rw [if_pos h13] <;> rfl
    rw [if_neg h13]
    by_cases h14 : idx = 14
    · rw [if_pos h14] <;> rfl
    rw [if_neg h14]
    by_cases h15 : idx = 15
    · rw [if_pos h15] <;> rfl
    rw [if_neg h15]
    by_cases h16 : idx = 16
    · rw [if_pos h16] <;> rfl
    rw [if_neg h16]
    by_cases h17 : idx = 17
    · rw [if_pos h17] <;> rfl
    rw [if_neg h17]
    by_cases h18 : idx = 18
    · rw [if_pos h18] <;> rfl
    rw [if_neg h18]
    by_cases h19 : idx = 19
    · rw [if_pos h19] <;> rfl
    rw [if_neg h19]
    by_cases h20 : idx = 20
    · rw [if_pos h20] <;> rfl
    rw [if_neg h20]
    by_cases h21 : idx = 21
    · rw [if_pos h21] <;> rfl
    rw [if_neg h21]
    by_cases h22 : idx = 22
    · rw [if_pos h22] <;> rfl
    rw [if_neg h22]
    by_cases h23 : idx = 23
    · rw [if_pos h23] <;> rfl
    rw [if_neg h23]
    by_cases h24 : idx = 24
    · rw [if_pos h24] <;> rfl
    rw [if_neg h24]
    by_cases h25 : idx = 25
    · rw [if_pos h25] <;> rfl
    rw [if_neg h25]
    by_cases h26 : idx = 26
    · rw [if_pos h26] <;> rfl
    rw [if_neg h26]
    by_cases h27 : idx = 27
    · rw [if_pos h27] <;> rfl
    rw [if_neg h27]
    by_cases h28 : idx = 28
    · rw [if_pos h28] <;> rfl
    rw [if_neg h28]
    by_cases h29 : idx = 29
    · rw [if_pos h29] <;> rfl
    rw [if_neg h29]
    by_cases h30 : idx = 30
    · rw [if_pos h30] <;> rfl
    rw [if_neg h30]
    by_cases h31 : idx = 31
    · rw [if_pos h31] <;> rfl
    rw [if_neg h31]
    by_cases h32 : idx = 32
    · rw [if_pos h32] <;> rfl
    rw [if_neg h32]
    by_cases h33 : idx = 33
    · exact absurd h33 h
    rw [if_neg h33]
    by_cases h34 : idx = 34
    · rw [if_pos h34] <;> rfl
    rw [if_neg h34]

/-- Every case except 34 leaves the triangle-spin angle untouched. -/
theorem drawPreset_triSpin_const (ctx : Ctx) (idx : ℕ) (feats : AudioFeatures)
    (motion : ℚ × ℚ) (st : St) (h : idx ≠ 34) :
    (drawPreset ctx idx feats motion st).1.triSpin = st.triSpin := by
  by_cases ho : ctx.onoff = false
  · rw [drawPreset_off ctx idx feats motion st ho] <;> rfl
  · simp only [drawPreset]
    rw [if_neg ho]
    by_cases h0 : idx = 0
    · rw [if_pos h0] <;> rfl
    rw [if_neg h0]
    by_cases h1 : idx = 1
    · rw [if_pos h1] <;> rfl
    rw [if_neg h1]
    by_cases h2 : idx = 2
    · rw [if_pos h2] <;> rfl
    rw [if_neg h2]
    by_cases h3 : idx = 3
    · rw [if_pos h3] <;> rfl
    rw [if_neg h3]
    by_cases h4 : idx = 4
    · rw [if_pos h4] <;> rfl
    rw [if_neg h4]
    by_cases h5 : idx = 5
    · rw [if_pos h5] <;> rfl
    rw [if_neg h5]
    by_cases h6 : idx = 6
    · rw [if_pos h6] <;> rfl
    rw [if_neg h6]
    by_cases h7 : idx = 7
    · rw [if_pos h7] <;> rfl
    rw [if_neg h7]
    by_cases h8 : idx = 8
    · rw [if_pos h8] <;> rfl
    rw [if_neg h8]
    by_cases h9 : idx = 9
    · rw [if_pos h9] <;> rfl
    rw [if_neg h9]
    by_cases h10 : idx = 10
    · rw [if_pos h10] <;> rfl
    rw [if_neg h10]
    by_cases h11 : idx = 11
    · rw [if_pos h11] <;> rfl
    rw [if_neg h11]
    by_cases h12 : idx = 12
    · rw [if_pos h12] <;> rfl
    rw [if_neg h12]
    by_cases h13 : idx = 13
    · rw [if_pos h13] <;> rfl
    rw [if_neg h13]
    by_cases h14 : idx = 14
    · rw [if_pos h14] <;> rfl
    rw [if_neg h14]
    by_cases h15 : idx = 15
    · rw [if_pos h15] <;> rfl
    rw [if_neg h15]
    by_cases h16 : idx = 16
    · rw [if_pos h16] <;> rfl
    rw [if_neg h16]
    by_cases h17 : idx = 17
    · rw [if_pos h17] <;> rfl
    rw [if_neg h17]
    by_cases h18 : idx = 18
    · rw [if_pos h18] <;> rfl
    rw [if_neg h18]
    by_cases h19 : idx = 19
    · rw [if_pos h19] <;> rfl
    rw [if_neg h19]
    by_cases h20 : idx = 20
    · rw [if_pos h20] <;> rfl
    rw [if_neg h20]
    by_cases h21 : idx = 21
    · rw [if_pos h21] <;> rfl
    rw [if_neg h21]
    by_cases h22 : idx = 22
    · rw [if_pos h22] <;> rfl
    rw [if_neg h22]
    by_cases h23 : idx = 23
    · rw [if_pos h23] <;> rfl
    rw [if_neg h23]
    by_cases h24 : idx = 24
    · rw [if_pos h24] <;> rfl
    rw [if_neg h24]
    by_cases h25 : idx = 25
    · rw [if_pos h25] <;> rfl
    rw [if_neg h25]
    by_cases h26 : idx = 26
    · rw [if_pos h26] <;> rfl
    rw [if_neg h26]
    by_cases h27 : idx = 27
    · rw [if_pos h27] <;> rfl
    rw [if_neg h27]
    by_cases h28 : idx = 28
    · rw [if_pos h28] <;> rfl
    rw [if_neg h28]
    by_cases h29 : idx = 29
    · rw [if_pos h29] <;> rfl
    rw [if_neg h29]
    by_cases h30 : idx = 30
    · rw [if_pos h30] <;> rfl
    rw [if_neg h30]
    by_cases h31 : idx = 31
    · rw [if_pos h31] <;> rfl
    rw [if_neg h31]
    by_cases h32 : idx = 32
    · rw [if_pos h32] <;> rfl
    rw [if_neg h32]
    by_cases h33 : idx = 33
    · rw [if_pos h33] <;> rfl
    rw [if_neg h33]
    by_cases h34 : idx = 34
    · exact absurd h34 h
    rw [if_neg h34]

/-- selectPreset with a clamped request equal to the active preset number is
    the identity. -/
theorem selectPreset_same (ctx : Ctx) (idx : ℤ) (rnd : ℚ) (cloudRnds : ℕ → ℚ) (st : St)
    (h : max 0 (min ((presetCount : ℤ) - 1) idx) = (st.presetNumber : ℤ)) :
    selectPreset ctx idx rnd cloudRnds st = st := by
  simp only [selectPreset]
  rw [if_pos h]

/-- selectPreset with a clamped request different from the active preset
    number: the preset number becomes the clamp, v is re-seeded, m is zeroed,
    every other persistent scalar survives, and the point cloud survives
    unless the activated preset is 8. -/
theorem selectPreset_changes (ctx : Ctx) (idx : ℤ) (rnd : ℚ) (cloudRnds : ℕ → ℚ) (st : St)
    (h : max 0 (min ((presetCount : ℤ) - 1) idx) ≠ (st.presetNumber : ℤ)) :
    (selectPreset ctx idx rnd cloudRnds st).presetNumber
        = (max 0 (min ((presetCount : ℤ) - 1) idx)).toNat ∧
    (selectPreset ctx idx rnd cloudRnds st).v = 0.2 + rnd*0.8 ∧
    (selectPreset ctx idx rnd cloudRnds st).m = 0 ∧
    (selectPreset ctx idx rnd cloudRnds st).a = st.a ∧
    (selectPreset ctx idx rnd cloudRnds st).b_ = st.b_ ∧
    (selectPreset ctx idx rnd cloudRnds st).c = st.c ∧
    (selectPreset ctx idx rnd cloudRnds st).d = st.d ∧
    (selectPreset ctx idx rnd cloudRnds st).timeRand = st.timeRand ∧
    (selectPreset ctx idx rnd cloudRnds st).sqSpin = st.sqSpin ∧
    (selectPreset ctx idx rnd cloudRnds st).triSpin = st.triSpin ∧
    (selectPreset ctx idx rnd cloudRnds st).spotlight = st.spotlight ∧
    ((max 0 (min ((presetCount : ℤ) - 1) idx)).toNat ≠ 8 →
      (selectPreset ctx idx rnd cloudRnds st).ranX = st.ranX ∧
      (selectPreset ctx idx rnd cloudRnds st).ranY = st.ranY) := by
  simp only [selectPreset]
  rw [if_neg h]
  split_ifs with h8
  · exact ⟨rfl, rfl, rfl, rfl, rfl, rfl, rfl, rfl, rfl, rfl, rfl,
      fun hne => absurd h8 hne⟩
  · exact ⟨rfl, rfl, rfl, rfl, rfl, rfl, rfl, rfl, rfl, rfl, rfl,
      fun _ => ⟨rfl, rfl⟩⟩

/-- The clamped preset number of selectPreset always equals the clamp of the
    request. -/
theorem selectPreset_pn_eq (ctx : Ctx) (idx : ℤ) (rnd : ℚ) (cloudRnds : ℕ → ℚ) (st : St) :
    ((selectPreset ctx idx rnd cloudRnds st).presetNumber : ℤ)
      = max 0 (min ((presetCount : ℤ) - 1) idx) := by
  by_cases h : max 0 (min ((presetCount : ℤ) - 1) idx) = (st.presetNumber : ℤ)
  · rw [selectPreset_same ctx idx rnd cloudRnds st h, h]
  · rw [(selectPreset_changes ctx idx rnd cloudRnds st h).1]
    exact Int.toNat_of_nonneg (le_max_left 0 _)

/-- C1 counterexample: with preset 1 active (ring layout, N=18), drawing one
    frame, then selecting preset 11, drawing it, selecting preset 1 back and
    drawing the next frame does NOT advance the dot-0 ring angle by the
    configured per-frame increment presetSpeed/2000: selectPreset re-seeds
    the shared accumulator v (here every random draw is 1/2, so v restarts
    at 0.6), breaking continuity across the switch. -/
theorem switch_resets_ring_phase_cex :
    ringDotAngle ctx0 0 c1Frame3.v - ringDotAngle ctx0 0 c1Frame1.v
      ≠ ctx0.presetSpeed / 2000 := by
  have hv1 : c1Frame1.v = 43/200 := by
    show (drawPreset ctx0 1 feats0 (0, 0) st0).1.v = 43/200
    rw [drawPreset_on_1 ctx0 feats0 (0, 0) st0 rfl, drawCase1_v]
    norm_num [st0, ctx0]
  have hpn1 : c1Frame1.presetNumber = 1 := by
    show (drawPreset ctx0 1 feats0 (0, 0) st0).1.presetNumber = 1
    rw [drawPreset_pn]
    rfl
  have hs2 := selectPreset_changes ctx0 11 (1/2) (fun _ => 1/2) c1Frame1
    (by rw [hpn1]; decide)
  have hv2 : c1State2.v = 3/5 := by
    show (selectPreset ctx0 11 (1/2) (fun _ => 1/2) c1Frame1).v = 3/5
    rw [hs2.2.1]; norm_num
  have hpn2 : c1State2.presetNumber = 11 := by
    show (selectPreset ctx0 11 (1/2) (fun _ => 1/2) c1Frame1).presetNumber = 11
    rw [hs2.1]; decide
  have hv3 : c1Frame2.v = 63/100 := by
    show (drawPreset ctx0 11 feats0 (0, 0) c1State2).1.v = 63/100
    rw [drawPreset_on_11 ctx0 feats0 (0, 0) c1State2 rfl, drawCase11_v]
    rw [show c1State2.v = 3/5 from hv2]
    norm_num [ctx0]
  have hpn3 : c1Frame2.presetNumber = 11 := by
    show (drawPreset ctx0 11 feats0 (0, 0) c1State2).1.presetNumber = 11
    rw [drawPreset_pn, hpn2]
  have hs3 := selectPreset_changes ctx0 1 (1/2) (fun _ => 1/2) c1Frame2
    (by rw [hpn3]; decide)
  have hv4 : c1State3.v = 3/5 := by
    show (selectPreset ctx0 1 (1/2) (fun _ => 1/2) c1Frame2).v = 3/5
    rw [hs3.2.1]; norm_num
  have hv5 : c1Frame3.v = 123/200 := by
    show (drawPreset ctx0 1 feats0 (0, 0) c1State3).1.v = 123/200
    rw [drawPreset_on_1 ctx0 feats0 (0, 0) c1State3 rfl, drawCase1_v]
    rw [show c1State3.v = 3/5 from hv4]
    norm_num [ctx0]
  rw [hv5, hv1]
  simp only [ringDotAngle]
  norm_num [ctx0]

/-- C1 amended: the ring-phase increment property holds between consecutive
    frames of preset 1 with no intervening switch (every dot angle advances
    by exactly presetSpeed/2000 per frame); but selecting a different preset
    resets the shared accumulators, setting v to 0.2 + 0.8*random and m to 0,
    while leaving a, b_, c, d, timeRand, both dedicated spin angles and the
    spotlight pool untouched, and re-seeding the point cloud exactly when the
    activated preset is 8. -/
theorem ring_phase_continuity_and_switch_reset :
    (∀ (ctx : Ctx) (feats : AudioFeatures) (motion : ℚ × ℚ) (st : St) (i : ℕ),
        ctx.onoff = true →
        (drawPreset ctx 1 feats motion st).1.v = st.v + ctx.presetSpeed/2000 ∧
        ringDotAngle ctx i ((drawPreset ctx 1 feats motion st).1.v)
            - ringDotAngle ctx i st.v = ctx.presetSpeed/2000) ∧
    (∀ (ctx : Ctx) (idx : ℤ) (rnd : ℚ) (cloudRnds : ℕ → ℚ) (st : St),
        max 0 (min ((presetCount : ℤ) - 1) idx) ≠ (st.presetNumber : ℤ) →
        (selectPreset ctx idx rnd cloudRnds st).v = 0.2 + rnd*0.8 ∧
        (selectPreset ctx idx rnd cloudRnds st).m = 0 ∧
        (selectPreset ctx idx rnd cloudRnds st).a = st.a ∧
        (selectPreset ctx idx rnd cloudRnds st).b_ = st.b_ ∧
        (selectPreset ctx idx rnd cloudRnds st).c = st.c ∧
        (selectPreset ctx idx rnd cloudRnds st).d = st.d ∧
        (selectPreset ctx idx rnd cloudRnds st).timeRand = st.timeRand ∧
        (selectPreset ctx idx rnd cloudRnds st).sqSpin = st.sqSpin ∧
        (selectPreset ctx idx rnd cloudRnds st).triSpin = st.triSpin ∧
        (selectPreset ctx idx rnd cloudRnds st).spotlight = st.spotlight ∧
        ((max 0 (min ((presetCount : ℤ) - 1) idx)).toNat ≠ 8 →
          (selectPreset ctx idx rnd cloudRnds st).ranX = st.ranX ∧
          (selectPreset ctx idx rnd cloudRnds st).ranY = st.ranY)) := by
  constructor
  · intro ctx feats motion st i h
    have hv : (drawPreset ctx 1 feats motion st).1.v = st.v + ctx.presetSpeed/2000 := by
      rw [drawPreset_on_1 ctx feats motion st h, drawCase1_v]
    refine ⟨hv, ?_⟩
    simp only [ringDotAngle, hv]
    ring
  · intro ctx idx rnd cloudRnds st h
    exact (selectPreset_changes ctx idx rnd cloudRnds st h).2

theorem ring_phase_continuity_and_switch_reset_w :
    ctx0.onoff = true ∧
    (drawPreset ctx0 1 feats0 (0, 0) st0).1.v = st0.v + ctx0.presetSpeed/2000 ∧
    max 0 (min ((presetCount : ℤ) - 1) 0) ≠ (st0.presetNumber : ℤ) ∧
    (selectPreset ctx0 0 (1/2) (fun _ => 1/2) st0).v = 0.2 + (1/2)*0.8 ∧
    (selectPreset ctx0 0 (1/2) (fun _ => 1/2) st0).sqSpin = st0.sqSpin :=
  ⟨rfl,
   (ring_phase_continuity_and_switch_reset.1 ctx0 feats0 (0, 0) st0 0 rfl).1,
   by decide,
   (ring_phase_continuity_and_switch_reset.2 ctx0 0 (1/2) (fun _ => 1/2) st0 (by decide)).1,
   (ring_phase_continuity_and_switch_reset.2 ctx0 0 (1/2) (fun _ => 1/2) st0
      (by decide)).2.2.2.2.2.2.2.1⟩

/-- C8 counterexample: drawing preset 0 (some other preset) does NOT advance
    the dedicated square-spin angle: the speed-derived increment is nonzero
    here, yet _sqSpin stays exactly where it was. -/
theorem spin_not_advanced_by_other_preset_cex :
    ctx0.presetSpeed/60000 * 20 ≠ 0 ∧
    (drawPreset ctx0 0 feats0 (0, 0) st0).1.sqSpin
        ≠ st0.sqSpin + ctx0.presetSpeed/60000 * 20 ∧
    (drawPreset ctx0 0 feats0 (0, 0) st0).1.sqSpin = st0.sqSpin := by
  have hconst : (drawPreset ctx0 0 feats0 (0, 0) st0).1.sqSpin = st0.sqSpin :=
    drawPreset_sqSpin_const ctx0 0 feats0 (0, 0) st0 (by decide)
  refine ⟨by norm_num [ctx0], ?_, hconst⟩
  rw [hconst]
  norm_num [ctx0, st0]

/-- C8 amended: the dedicated spin angles advance by (speed/60000)*20 exactly
    on the frames that draw their own preset (33 for _sqSpin, 34 for
    _triSpin); drawing any other preset leaves them unchanged, and
    selectPreset never resets them, so their values persist (without
    advancing) across preset switches. -/
theorem spin_advance_own_frame_only :
    (∀ (ctx : Ctx) (feats : AudioFeatures) (motion : ℚ × ℚ) (st : St),
        ctx.onoff = true →
        (drawPreset ctx 33 feats motion st).1.sqSpin
          = st.sqSpin + ctx.presetSpeed/60000 * 20 ∧
        (drawPreset ctx 34 feats motion st).1.triSpin
          = st.triSpin + ctx.presetSpeed/60000 * 20) ∧
    (∀ (ctx : Ctx) (feats : AudioFeatures) (motion : ℚ × ℚ) (st : St) (idx : ℕ),
        idx ≠ 33 → (drawPreset ctx idx feats motion st).1.sqSpin = st.sqSpin) ∧
    (∀ (ctx : Ctx) (feats : AudioFeatures) (motion : ℚ × ℚ) (st : St) (idx : ℕ),
        idx ≠ 34 → (drawPreset ctx idx feats motion st).1.triSpin = st.triSpin) ∧
    (∀ (ctx : Ctx) (idx : ℤ) (rnd : ℚ) (cloudRnds : ℕ → ℚ) (st : St),
        (selectPreset ctx idx rnd cloudRnds st).sqSpin = st.sqSpin ∧
        (selectPreset ctx idx rnd cloudRnds st).triSpin = st.triSpin) := by
  refine ⟨?_, ?_, ?_, ?_⟩
  · intro ctx feats motion st h
    constructor
    · rw [drawPreset_on_33 ctx feats motion st h, drawCase33_sqSpin]
      norm_num
    · rw [drawPreset_on_34 ctx feats motion st h, drawCase34_triSpin]
      norm_num
  · intro ctx feats motion st idx h
    exact drawPreset_sqSpin_const ctx idx feats motion st h
  · intro ctx feats motion st idx h
    exact drawPreset_triSpin_const ctx idx feats motion st h
  · intro ctx idx rnd cloudRnds st
    by_cases h : max 0 (min ((presetCount : ℤ) - 1) idx) = (st.presetNumber : ℤ)
    · rw [selectPreset_same ctx idx rnd cloudRnds st h]
      exact ⟨rfl, rfl⟩
    · have hc := selectPreset_changes ctx idx rnd cloudRnds st h
      exact ⟨hc.2.2.2.2.2.2.2.2.1, hc.2.2.2.2.2.2.2.2.2.1⟩

theorem spin_advance_own_frame_only_w :
    ctx0.onoff = true ∧
    (drawPreset ctx0 33 feats0 (0, 0) st0).1.sqSpin
      = st0.sqSpin + ctx0.presetSpeed/60000 * 20 ∧
    (2 : ℕ) ≠ 33 ∧
    (drawPreset ctx0 2 feats0 (0, 0) st0).1.sqSpin = st0.sqSpin :=
  ⟨rfl,
   (spin_advance_own_frame_only.1 ctx0 feats0 (0, 0) st0 rfl).1,
   by decide,
   spin_advance_own_frame_only.2.1 ctx0 feats0 (0, 0) st0 2 (by decide)⟩

/-- C10: selectPreset clamps every integer argument into the valid range
    [0, presetCount-1]: the resulting preset number is exactly the clamp of
    the request (so 999 activates the last preset, 34, and -5 activates
    preset 0), the preset number always stays strictly below presetCount, and
    a request whose clamp equals the already-active preset number leaves the
    entire state unchanged.  The embedding is a total function, so no
    exception is possible. -/
theorem selectPreset_clamp_spec :
    (∀ (ctx : Ctx) (idx : ℤ) (rnd : ℚ) (cloudRnds : ℕ → ℚ) (st : St),
        ((selectPreset ctx idx rnd cloudRnds st).presetNumber : ℤ)
          = max 0 (min ((presetCount : ℤ) - 1) idx)) ∧
    (∀ (ctx : Ctx) (idx : ℤ) (rnd : ℚ) (cloudRnds : ℕ → ℚ) (st : St),
        (selectPreset ctx idx rnd cloudRnds st).presetNumber < presetCount) ∧
    (∀ (ctx : Ctx) (idx : ℤ) (rnd : ℚ) (cloudRnds : ℕ → ℚ) (st : St),
        max 0 (min ((presetCount : ℤ) - 1) idx) = (st.presetNumber : ℤ) →
        selectPreset ctx idx rnd cloudRnds st = st) := by
  refine ⟨selectPreset_pn_eq, ?_, selectPreset_same⟩
  intro ctx idx rnd cloudRnds st
  have h := selectPreset_pn_eq ctx idx rnd cloudRnds st
  have hpc : presetCount = 35 := rfl
  rw [hpc] at h ⊢
  omega

theorem selectPreset_clamp_spec_w :
    (selectPreset ctx0 999 (1/2) (fun _ => 1/2) st0).presetNumber = 34 ∧
    (selectPreset ctx0 (-5) (1/2) (fun _ => 1/2) st0).presetNumber = 0 ∧
    (selectPreset ctx0 999 (1/2) (fun _ => 1/2) st0).presetNumber < presetCount ∧
    max 0 (min ((presetCount : ℤ) - 1) 1) = (st0.presetNumber : ℤ) ∧
    selectPreset ctx0 1 (1/2) (fun _ => 1/2) st0 = st0 :=
  ⟨by decide, by decide,
   selectPreset_clamp_spec.2.1 ctx0 999 (1/2) (fun _ => 1/2) st0,
   by decide,
   selectPreset_clamp_spec.2.2 ctx0 1 (1/2) (fun _ => 1/2) st0 (by decide)⟩

/- Frozen-randomization helper lemmas: when the re-randomization condition
   does not hold, the endpoint state of the randomized presets survives the
   frame; when it holds, preset 3 overwrites endpoint a with a fresh draw. -/

theorem drawCase3_frozen (ctx : Ctx) (cx cy size tx ty : ℚ) (st : St)
    (hno : ¬(rerandInterval10 ctx.presetSpeed ≤ ctx.now - st.timeRand)) :
    (drawCase3 ctx cx cy size tx ty st).1.a = st.a ∧
    (drawCase3 ctx cx cy size tx ty st).1.b_ = st.b_ ∧
    (drawCase3 ctx cx cy size tx ty st).1.c = st.c ∧
    (drawCase3 ctx cx cy size tx ty st).1.d = st.d ∧
    (drawCase3 ctx cx cy size tx ty st).1.timeRand = st.timeRand := by
  simp only [drawCase3]
  refine ⟨?_, ?_, ?_, ?_, ?_⟩ <;> rw [if_neg hno]

theorem drawCase3_rerand_a (ctx : Ctx) (cx cy size tx ty : ℚ) (st : St)
    (hyes : rerandInterval10 ctx.presetSpeed ≤ ctx.now - st.timeRand) :
    (drawCase3 ctx cx cy size tx ty st).1.a
      = ((⌊50 + ctx.rnd 0 * (ctx.visualW/ctx.DPR - 100)⌋ : ℤ) : ℚ) := by
  simp only [drawCase3]
  rw [if_pos hyes]

theorem drawCase4_frozen (ctx : Ctx) (cx cy size tx ty : ℚ) (st : St)
    (hno : ¬(rerandInterval10 ctx.presetSpeed ≤ ctx.now - st.timeRand)) :
    (drawCase4 ctx cx cy size tx ty st).1.a = st.a ∧
    (drawCase4 ctx cx cy size tx ty st).1.b_ = st.b_ ∧
    (drawCase4 ctx cx cy size tx ty st).1.c = st.c ∧
    (drawCase4 ctx cx cy size tx ty st).1.timeRand = st.timeRand := by
  simp only [drawCase4]
  refine ⟨?_, ?_, ?_, ?_⟩ <;> rw [if_neg hno]

theorem drawCase9_frozen (ctx : Ctx) (cx cy size tx ty : ℚ) (st : St)
    (hno : ¬(rerandInterval95 ctx.presetSpeed ≤ ctx.now - st.timeRand)) :
    (drawCase9 ctx cx cy size tx ty st).1.ranX = st.ranX ∧
    (drawCase9 ctx cx cy size tx ty st).1.ranY = st.ranY ∧
    (drawCase9 ctx cx cy size tx ty st).1.timeRand = st.timeRand := by
  simp only [drawCase9]
  refine ⟨?_, ?_, ?_⟩ <;> rw [if_neg hno]

theorem drawCase10_frozen (ctx : Ctx) (cx cy size tx ty : ℚ) (st : St)
    (hno : ¬(rerandInterval95 ctx.presetSpeed ≤ ctx.now - st.timeRand)) :
    (drawCase10 ctx cx cy size tx ty st).1.ranX = st.ranX ∧
    (drawCase10 ctx cx cy size tx ty st).1.ranY = st.ranY ∧
    (drawCase10 ctx cx cy size tx ty st).1.timeRand = st.timeRand := by
  simp only [drawCase10]
  refine ⟨?_, ?_, ?_⟩ <;> rw [if_neg hno]

/-- Boolean flip helper: a flag that is not false is true. -/
theorem onoff_true_of_not_false (b : Bool) (h : ¬(b = false)) : b = true := by
  revert h; cases b <;> simp

/-- At speed 0 the interval of presets 3 and 4 is 1e9 ms, and the condition
    now - timeRand < 1e9 keeps it from firing. -/
theorem interval10_no_fire (ctx : Ctx) (st : St) (hsp : ctx.presetSpeed = 0)
    (ht : ctx.now - st.timeRand < 1000000000) :
    ¬(rerandInterval10 ctx.presetSpeed ≤ ctx.now - st.timeRand) := by
  rw [hsp]
  simp only [rerandInterval10, if_pos rfl]
  exact not_le.mpr ht

theorem interval95_no_fire (ctx : Ctx) (st : St) (hsp : ctx.presetSpeed = 0)
    (ht : ctx.now - st.timeRand < 1000000000) :
    ¬(rerandInterval95 ctx.presetSpeed ≤ ctx.now - st.timeRand) := by
  rw [hsp]
  simp only [rerandInterval95, if_pos rfl]
  exact not_le.mpr ht

/-- One frame of preset 3 at speed 0 below the 1e9 threshold leaves the
    endpoint state untouched. -/
theorem case3_frozen_step (ctx : Ctx) (feats : AudioFeatures) (motion : ℚ × ℚ) (st : St)
    (hsp : ctx.presetSpeed = 0) (ht : ctx.now - st.timeRand < 1000000000) :
    (drawPreset ctx 3 feats motion st).1.a = st.a ∧
    (drawPreset ctx 3 feats motion st).1.b_ = st.b_ ∧
    (drawPreset ctx 3 feats motion st).1.c = st.c ∧
    (drawPreset ctx 3 feats motion st).1.d = st.d ∧
    (drawPreset ctx 3 feats motion st).1.timeRand = st.timeRand := by
  by_cases ho : ctx.onoff = false
  · rw [drawPreset_off ctx 3 feats motion st ho]
    exact ⟨rfl, rfl, rfl, rfl, rfl⟩
  · rw [drawPreset_on_3 ctx feats motion st (onoff_true_of_not_false _ ho)]
    exact drawCase3_frozen ctx _ _ _ _ _ st (interval10_no_fire ctx st hsp ht)

/-- C6 counterexample: the re-randomization interval at speed 0 is the finite
    1e9 ms, not infinity: with speed 0, timeRand 0 and the clock at exactly
    1e9 ms, one frame of preset 3 DOES re-randomize endpoint a, so the
    endpoints are not frozen permanently. -/
theorem speed_zero_rerandomizes_cex :
    ctxC6.presetSpeed = 0 ∧ rerandInterval10 0 = 1000000000 ∧
    (drawPreset ctxC6 3 feats0 (0, 0) st0).1.a ≠ st0.a := by
  refine ⟨rfl, by norm_num [rerandInterval10], ?_⟩
  rw [drawPreset_on_3 ctxC6 feats0 (0, 0) st0 rfl]
  rw [drawCase3_rerand_a ctxC6 _ _ _ _ _ st0
    (by norm_num [rerandInterval10, ctxC6, ctxFrozen, ctx0, st0])]
  norm_num [ctxC6, ctxFrozen, ctx0, st0]

/-- C6 amended: the interval of the randomized-endpoint presets at speed 0 is
    1e9 ms rather than infinity, so the random endpoints/centers are frozen
    exactly while now - timeRand stays below 1e9 ms: under that condition a
    frame of preset 3, 4, 9 or 10 leaves its endpoint state (and point-cloud
    arrays) unchanged, and any sequence of preset-3 frames whose timestamps
    all stay within 1e9 ms of the last randomization (for example 1000
    consecutive 16 ms frames) keeps the endpoint quadruple identical. -/
theorem rand_endpoints_frozen_below_1e9 :
    (∀ (ctx : Ctx) (feats : AudioFeatures) (motion : ℚ × ℚ) (st : St),
        ctx.presetSpeed = 0 → ctx.now - st.timeRand < 1000000000 →
        ((drawPreset ctx 3 feats motion st).1.a = st.a ∧
         (drawPreset ctx 3 feats motion st).1.b_ = st.b_ ∧
         (drawPreset ctx 3 feats motion st).1.c = st.c ∧
         (drawPreset ctx 3 feats motion st).1.d = st.d ∧
         (drawPreset ctx 3 feats motion st).1.timeRand = st.timeRand) ∧
        ((drawPreset ctx 4 feats motion st).1.a = st.a ∧
         (drawPreset ctx 4 feats motion st).1.b_ = st.b_ ∧
         (drawPreset ctx 4 feats motion st).1.c = st.c ∧
         (drawPreset ctx 4 feats motion st).1.timeRand = st.timeRand) ∧
        ((drawPreset ctx 9 feats motion st).1.ranX = st.ranX ∧
         (drawPreset ctx 9 feats motion st).1.ranY = st.ranY ∧
         (drawPreset ctx 9 feats motion st).1.timeRand = st.timeRand) ∧
        ((drawPreset ctx 10 feats motion st).1.ranX = st.ranX ∧
         (drawPreset ctx 10 feats motion st).1.ranY = st.ranY ∧
         (drawPreset ctx 10 feats motion st).1.timeRand = st.timeRand)) ∧
    (∀ (ctx : Ctx) (feats : AudioFeatures) (motion : ℚ × ℚ) (times : List ℚ) (st : St),
        ctx.presetSpeed = 0 → (∀ t ∈ times, t - st.timeRand < 1000000000) →
        (framesAt ctx 3 feats motion times st).a = st.a ∧
        (framesAt ctx 3 feats motion times st).b_ = st.b_ ∧
        (framesAt ctx 3 feats motion times st).c = st.c ∧
        (framesAt ctx 3 feats motion times st).d = st.d ∧
        (framesAt ctx 3 feats motion times st).timeRand = st.timeRand) := by
  constructor
  · intro ctx feats motion st hsp ht
    refine ⟨case3_frozen_step ctx feats motion st hsp ht, ?_, ?_, ?_⟩
    · by_cases ho : ctx.onoff = false
      · rw [drawPreset_off ctx 4 feats motion st ho]
        exact ⟨rfl, rfl, rfl, rfl⟩
      · rw [drawPreset_on_4 ctx feats motion st (onoff_true_of_not_false _ ho)]
        exact drawCase4_frozen ctx _ _ _ _ _ st (interval10_no_fire ctx st hsp ht)
    · by_cases ho : ctx.onoff = false
      · rw [drawPreset_off ctx 9 feats motion st ho]
        exact ⟨rfl, rfl, rfl⟩
      · rw [drawPreset_on_9 ctx feats motion st (onoff_true_of_not_false _ ho)]
        exact drawCase9_frozen ctx _ _ _ _ _ st (interval95_no_fire ctx st hsp ht)
    · by_cases ho : ctx.onoff = false
      · rw [drawPreset_off ctx 10 feats motion st ho]
        exact ⟨rfl, rfl, rfl⟩
      · rw [drawPreset_on_10 ctx feats motion st (onoff_true_of_not_false _ ho)]
        exact drawCase10_frozen ctx _ _ _ _ _ st (interval95_no_fire ctx st hsp ht)
  · intro ctx feats motion times
    induction times with
    | nil => intro st _ _; exact ⟨rfl, rfl, rfl, rfl, rfl⟩
    | cons t rest ih =>
        intro st hsp ht
        have hstep := case3_frozen_step { ctx with now := t } feats motion st hsp
          (ht t (by simp))
        have htail := ih ((drawPreset { ctx with now := t } 3 feats motion st).1) hsp
          (fun q hq => by rw [hstep.2.2.2.2]; exact ht q (by simp [hq]))
        refine ⟨?_, ?_, ?_, ?_, ?_⟩
        · exact htail.1.trans hstep.1
        · exact htail.2.1.trans hstep.2.1
        · exact htail.2.2.1.trans hstep.2.2.1
        · exact htail.2.2.2.1.trans hstep.2.2.2.1
        · exact htail.2.2.2.2.trans hstep.2.2.2.2

theorem rand_endpoints_frozen_below_1e9_w :
    ctxFrozen.presetSpeed = 0 ∧ ctxFrozen.now - st0.timeRand < 1000000000 ∧
    (drawPreset ctxFrozen 3 feats0 (0, 0) st0).1.a = st0.a ∧
    (framesAt ctxFrozen 3 feats0 (0, 0) [100, 116, 132] st0).a = st0.a :=
  ⟨rfl, by norm_num [ctxFrozen, ctx0, st0],
   ((rand_endpoints_frozen_below_1e9.1 ctxFrozen feats0 (0, 0) st0 rfl
      (by norm_num [ctxFrozen, ctx0, st0])).1).1,
   (rand_endpoints_frozen_below_1e9.2 ctxFrozen feats0 (0, 0) [100, 116, 132] st0 rfl
      (by intro t htm; fin_cases htm <;> norm_num [st0])).1⟩

/- Scroll accumulator helper lemmas. -/

theorem drawCase16_m (ctx : Ctx) (cx cy size tx ty : ℚ) (st : St) :
    (drawCase16 ctx cx cy size tx ty st).1.m
      = (if ctx.visualW/ctx.DPR - 50 ≤ st.m + ctx.presetSpeed/3 then -50
         else st.m + ctx.presetSpeed/3) := rfl

theorem drawCase17_m (ctx : Ctx) (cx cy size tx ty : ℚ) (st : St) :
    (drawCase17 ctx cx cy size tx ty st).1.m
      = (if ctx.H/ctx.DPR - 50 ≤ st.m + ctx.presetSpeed/3 then -50
         else st.m + ctx.presetSpeed/3) := rfl

/-- One frame of preset 16 keeps m inside [-50, w-50). -/
theorem case16_m_invariant (ctx : Ctx) (feats : AudioFeatures) (motion : ℚ × ℚ) (st : St)
    (hsp : 0 ≤ ctx.presetSpeed)
    (hlo : -50 ≤ st.m) (hhi : st.m < ctx.visualW/ctx.DPR - 50) :
    -50 ≤ (drawPreset ctx 16 feats motion st).1.m ∧
    (drawPreset ctx 16 feats motion st).1.m < ctx.visualW/ctx.DPR - 50 := by
  by_cases ho : ctx.onoff = false
  · rw [drawPreset_off ctx 16 feats motion st ho]
    exact ⟨hlo, hhi⟩
  · rw [drawPreset_on_16 ctx feats motion st (onoff_true_of_not_false _ ho), drawCase16_m]
    split_ifs with hw
    · exact ⟨by norm_num, by linarith⟩
    · exact ⟨by linarith, not_le.mp hw⟩

/-- One frame of preset 17 keeps m inside [-50, h-50). -/
theorem case17_m_invariant (ctx : Ctx) (feats : AudioFeatures) (motion : ℚ × ℚ) (st : St)
    (hsp : 0 ≤ ctx.presetSpeed)
    (hlo : -50 ≤ st.m) (hhi : st.m < ctx.H/ctx.DPR - 50) :
    -50 ≤ (drawPreset ctx 17 feats motion st).1.m ∧
    (drawPreset ctx 17 feats motion st).1.m < ctx.H/ctx.DPR - 50 := by
  by_cases ho : ctx.onoff = false
  · rw [drawPreset_off ctx 17 feats motion st ho]
    exact ⟨hlo, hhi⟩
  · rw [drawPreset_on_17 ctx feats motion st (onoff_true_of_not_false _ ho), drawCase17_m]
    split_ifs with hw
    · exact ⟨by norm_num, by linarith⟩
    · exact ⟨by linarith, not_le.mp hw⟩

theorem frames16_m_invariant (ctx : Ctx) (feats : AudioFeatures) (motion : ℚ × ℚ) :
    ∀ (speeds : List ℚ) (st : St), (∀ sp ∈ speeds, 0 ≤ sp) →
      -50 ≤ st.m → st.m < ctx.visualW/ctx.DPR - 50 →
      -50 ≤ (framesAtSpeeds ctx 16 feats motion speeds st).m ∧
      (framesAtSpeeds ctx 16 feats motion speeds st).m < ctx.visualW/ctx.DPR - 50 := by
  intro speeds
  induction speeds with
  | nil => intro st _ hlo hhi; exact ⟨hlo, hhi⟩
  | cons sp rest ih =>
      intro st hs hlo hhi
      have hstep := case16_m_invariant { ctx with presetSpeed := sp } feats motion st
        (hs sp (by simp)) hlo hhi
      exact ih _ (fun q hq => hs q (by simp [hq])) hstep.1 hstep.2

theorem frames17_m_invariant (ctx : Ctx) (feats : AudioFeatures) (motion : ℚ × ℚ) :
    ∀ (speeds : List ℚ) (st : St), (∀ sp ∈ speeds, 0 ≤ sp) →
      -50 ≤ st.m → st.m < ctx.H/ctx.DPR - 50 →
      -50 ≤ (framesAtSpeeds ctx 17 feats motion speeds st).m ∧
      (framesAtSpeeds ctx 17 feats motion speeds st).m < ctx.H/ctx.DPR - 50 := by
  intro speeds
  induction speeds with
  | nil => intro st _ hlo hhi; exact ⟨hlo, hhi⟩
  | cons sp rest ih =>
      intro st hs hlo hhi
      have hstep := case17_m_invariant { ctx with presetSpeed := sp } feats motion st
        (hs sp (by simp)) hlo hhi
      exact ih _ (fun q hq => hs q (by simp [hq])) hstep.1 hstep.2

/-- C7: for the scrolling presets 16 and 17 and every sequence of speed
    values in [0,100], the scroll accumulator m stays inside the half-open
    range [-50, extent-50) after every frame, where the extent is the
    drawable width for preset 16 and the drawable height for preset 17: each
    frame adds speed/3 and wraps back to -50 the moment the sum reaches
    extent-50, so m never reaches extent-50. -/
theorem scroll_m_range_invariant (ctx : Ctx) (feats : AudioFeatures) (motion : ℚ × ℚ)
    (speeds : List ℚ) (st : St)
    (hs : ∀ sp ∈ speeds, 0 ≤ sp ∧ sp ≤ 100) :
    (-50 ≤ st.m → st.m < ctx.visualW/ctx.DPR - 50 →
      ∀ n : ℕ, -50 ≤ (framesAtSpeeds ctx 16 feats motion (speeds.take n) st).m ∧
        (framesAtSpeeds ctx 16 feats motion (speeds.take n) st).m
          < ctx.visualW/ctx.DPR - 50) ∧
    (-50 ≤ st.m → st.m < ctx.H/ctx.DPR - 50 →
      ∀ n : ℕ, -50 ≤ (framesAtSpeeds ctx 17 feats motion (speeds.take n) st).m ∧
        (framesAtSpeeds ctx 17 feats motion (speeds.take n) st).m
          < ctx.H/ctx.DPR - 50) := by
  constructor
  · intro hlo hhi n
    exact frames16_m_invariant ctx feats motion (speeds.take n) st
      (fun sp hsp => (hs sp (List.mem_of_mem_take hsp)).1) hlo hhi
  · intro hlo hhi n
    exact frames17_m_invariant ctx feats motion (speeds.take n) st
      (fun sp hsp => (hs sp (List.mem_of_mem_take hsp)).1) hlo hhi

theorem scroll_m_range_invariant_w :
    (∀ sp ∈ ([30, 100, 0] : List ℚ), 0 ≤ sp ∧ sp ≤ 100) ∧
    -50 ≤ st0.m ∧ st0.m < ctx0.visualW/ctx0.DPR - 50 ∧
    (∀ n : ℕ,
      -50 ≤ (framesAtSpeeds ctx0 16 feats0 (0, 0) (([30, 100, 0] : List ℚ).take n) st0).m ∧
      (framesAtSpeeds ctx0 16 feats0 (0, 0) (([30, 100, 0] : List ℚ).take n) st0).m
        < ctx0.visualW/ctx0.DPR - 50) :=
  ⟨by intro sp hsp; fin_cases hsp <;> norm_num,
   by norm_num [st0],
   by norm_num [st0, ctx0],
   (scroll_m_range_invariant ctx0 feats0 (0, 0) [30, 100, 0] st0
      (by intro sp hsp; fin_cases hsp <;> norm_num)).1
     (by norm_num [st0]) (by norm_num [st0, ctx0])⟩

/- Motion blender helper lemmas. -/

theorem qlerp_one (a b : ℚ) : qlerp a b 1 = b := by
  unfold qlerp; ring

/-- The eased factor of the half-way blend scenario is exactly 1/2. -/
theorem blendFactor_msBlend : blendFactor ctxFrozen (865/2) msBlend = 1/2 := by
  norm_num [blendFactor, msBlend, motionBlendDurationSec, ctxFrozen, ctx0,
    easeInOutCubic, qlerp, qclamp, min_def, max_def]

/-- Reading the offset halfway through the blend leaves the blend running and
    the phase at 0; the state is unchanged. -/
theorem msAfter1_eq : msAfter1 = msBlend := by
  show (computeMotionOffset ctxFrozen (865/2) (16/1000) msBlend).1 = msBlend
  have hd : decide ((1 : ℚ) ≤ blendFactor ctxFrozen (865/2) msBlend) = false := by
    rw [blendFactor_msBlend]
    exact decide_eq_false (by norm_num)
  simp only [computeMotionOffset, hd]
  norm_num [msBlend, ctxFrozen, ctx0, qlerp, qclamp, fract01, min_def, max_def]

/-- The offset halfway through the off-to-square blend is (90, -90). -/
theorem offBefore_eq : offBefore = (90, -90) := by
  show (computeMotionOffset ctxFrozen (865/2) (16/1000) msBlend).2 = (90, -90)
  simp only [computeMotionOffset, blendFactor_msBlend]
  norm_num [msBlend, ctxFrozen, ctx0, motionPos, fract01, qlerp, qclamp,
    min_def, max_def, List.getD]

/-- Retargeting mid-blend snaps the from path to the OLD TARGET (the square
    path), not to the currently displayed interpolation. -/
theorem msRetarget_eq :
    msRetarget = ⟨0, .square, .triangle, 865/2, true⟩ := by
  show setMotionMode .triangle (865/2) msAfter1 = _
  rw [msAfter1_eq]
  simp [setMotionMode, msBlend]

/-- C9 counterexample: halfway through the off-to-square blend the offset is
    (90, -90); switching the target to the triangle path and reading the
    offset one 16 ms frame later jumps it almost to the square path corner
    (180, -180), while the same frame without the switch only eases it
    slightly further: the squared jump across the switch strictly exceeds the
    squared one-frame eased motion without it, contradicting the bounded-jump
    property. -/
theorem motion_retarget_jump_cex :
    (offSwitch.1 - offBefore.1)^2 + (offSwitch.2 - offBefore.2)^2
      > (offNoSwitch.1 - offBefore.1)^2 + (offNoSwitch.2 - offBefore.2)^2 := by
  have hS : offSwitch = (computeMotionOffset ctxFrozen (897/2) (16/1000)
      (⟨0, .square, .triangle, 865/2, true⟩ : MotionSt)).2 := by
    rw [offSwitch, msRetarget_eq]
  have hN : offNoSwitch = (computeMotionOffset ctxFrozen (897/2) (16/1000) msBlend).2 := by
    rw [offNoSwitch, msAfter1_eq]
  rw [hS, hN, offBefore_eq]
  norm_num [computeMotionOffset, blendFactor, motionBlendDurationSec, easeInOutCubic,
    msBlend, ctxFrozen, ctx0, motionPos, fract01, qlerp, qclamp, min_def, max_def,
    List.getD]

/-- C9 amended: setMotionMode with a new target always snaps the from path to
    the OLD TARGET and restarts the blend window (a no-op when the target is
    unchanged); inside computeMotionOffset the from mode is snapped to the
    target only at blend completion (eased factor reaching 1), never
    mid-blend; and once no blend is in progress the returned offset is the
    pure target-path offset.  Because a mid-blend retarget restarts from the
    old target path rather than from the current interpolated offset, the
    offset can jump by up to the remaining blend distance (the bounded-jump
    property of the claim fails, see the counterexample). -/
theorem motion_blend_retarget_spec :
    (∀ (next : MotionMode) (now : ℚ) (ms : MotionSt), next ≠ ms.toMode →
        setMotionMode next now ms
          = { ms with fromMode := ms.toMode, toMode := next,
                      blendStart := now, blending := true }) ∧
    (∀ (next : MotionMode) (now : ℚ) (ms : MotionSt), next = ms.toMode →
        setMotionMode next now ms = ms) ∧
    (∀ (ctx : Ctx) (tNow dt : ℚ) (ms : MotionSt),
        ms.blending = true → blendFactor ctx tNow ms < 1 →
        (computeMotionOffset ctx tNow dt ms).1.fromMode = ms.fromMode ∧
        (computeMotionOffset ctx tNow dt ms).1.blending = true) ∧
    (∀ (ctx : Ctx) (tNow dt : ℚ) (ms : MotionSt),
        ms.blending = true → 1 ≤ blendFactor ctx tNow ms →
        (computeMotionOffset ctx tNow dt ms).1.fromMode = ms.toMode ∧
        (computeMotionOffset ctx tNow dt ms).1.blending = false) ∧
    (∀ (ctx : Ctx) (tNow dt : ℚ) (ms : MotionSt),
        ms.blending = false →
        (computeMotionOffset ctx tNow dt ms).2
          = motionPos ctx ms.toMode
              (fract01 (ms.motionPhase + dt * qlerp 0 0.22 (qclamp (ctx.presetSpeed/100) 0 1)))
              (0.18 * min (ctx.visualW/ctx.DPR) (ctx.H/ctx.DPR))) := by
  refine ⟨?_, ?_, ?_, ?_, ?_⟩
  · intro next now ms h
    simp only [setMotionMode, if_neg h]
  · intro next now ms h
    simp only [setMotionMode, if_pos h]
  · intro ctx tNow dt ms hb hlt
    have hd : decide ((1 : ℚ) ≤ blendFactor ctx tNow ms) = false :=
      decide_eq_false (not_le.mpr hlt)
    constructor
    · simp [computeMotionOffset, hb, hd]
    · simp [computeMotionOffset, hb, hd]
  · intro ctx tNow dt ms hb hge
    have hd : decide ((1 : ℚ) ≤ blendFactor ctx tNow ms) = true :=
      decide_eq_true hge
    constructor
    · simp [computeMotionOffset, hb, hd]
    · simp [computeMotionOffset, hb, hd]
  · intro ctx tNow dt ms hb
    simp [computeMotionOffset, blendFactor, hb, qlerp_one]

theorem motion_blend_retarget_spec_w :
    MotionMode.triangle ≠ msBlend.toMode ∧
    setMotionMode .triangle (865/2) msBlend
      = { msBlend with fromMode := msBlend.toMode, toMode := .triangle,
                       blendStart := 865/2, blending := true } ∧
    msBlend.blending = true ∧
    blendFactor ctxFrozen (865/2) msBlend < 1 ∧
    (computeMotionOffset ctxFrozen (865/2) (16/1000) msBlend).1.fromMode
      = msBlend.fromMode :=
  ⟨by decide,
   motion_blend_retarget_spec.1 .triangle (865/2) msBlend (by decide),
   rfl,
   by rw [blendFactor_msBlend]; norm_num,
   (motion_blend_retarget_spec.2.2.1 ctxFrozen (865/2) (16/1000) msBlend rfl
      (by rw [blendFactor_msBlend]; norm_num)).1⟩

end LightShow
